import Mathlib

/-!
# Verification of the transformation-cage geometry core

Shallow embedding of `editor/src/messages/tool/common_functionality/transformation_cage.rs`
(the resize/rotate cage of a 2D editor) together with proofs about the claims of
its specification.

The source works over IEEE-754 `f64` (glam's `DVec2` / `DAffine2`).  We use three
models, each faithful to the aspect of the code that the corresponding claims are
about:

* `ExactModel` — exact rational arithmetic (`ℚ`).  Division is total in Lean
  (`x / 0 = 0`), and the `is_finite` guard of a float division `a / b` is embedded
  as the test `b ≠ 0` (in `f64`, a division of finite operands is non-finite
  exactly when the divisor is zero, ignoring overflow).  Used for the algebraic
  resize claims, where the spec speaks "within floating tolerance" and the usual
  real-valued reading applies.  The claim theorems over this model carry
  nonzero-divisor hypotheses, so the totality of Lean's division never stands in
  for an `f64` `NaN` on the traced path.
* `RealModel` — exact real arithmetic (`ℝ`), for the operations that use
  `sqrt` (vector length) and trigonometry (axis snapping).  `angle_between` is
  modelled as the signed angle `atan2 (perp_dot v w) (dot v w)`, which agrees in
  exact arithmetic with glam's implementation whenever the first vector is
  non-zero — the only case the real-model theorems exercise.  The zero-vector
  case, where glam documents the inputs as required non-zero and the glam
  generation pinned by this code computes `acos` of `0/0` and so returns `NaN`,
  is modelled in the float model (`angle_between_acos`).
* `FloatModel` — a four-point float domain: a finite rational, `+∞`, `-∞` or
  `NaN`, with IEEE-754 propagation rules for the special values (finite
  arithmetic is exact, signed zero and overflow are not modelled; no operation
  traced by the theorems below depends on either).  Used for the claims that are
  genuinely about `NaN`/`±∞` handling.

The constants `SELECTION_DRAG_ANGLE`, `BOUNDS_SELECT_THRESHOLD` and
`BOUNDS_ROTATE_THRESHOLD` live in the crate's `consts` module, which is not part
of the provided sources; they are modelled from the spec (see their doc comments).
-/

/-! ## Exact rational model -/

namespace ExactModel

/-- glam `DVec2`, with exact rational components. -/
@[ext] structure Vec2 where
  x : ℚ
  y : ℚ
  deriving DecidableEq

instance : Add Vec2 := ⟨fun a b => ⟨a.x + b.x, a.y + b.y⟩⟩
instance : Sub Vec2 := ⟨fun a b => ⟨a.x - b.x, a.y - b.y⟩⟩
instance : Mul Vec2 := ⟨fun a b => ⟨a.x * b.x, a.y * b.y⟩⟩
instance : Div Vec2 := ⟨fun a b => ⟨a.x / b.x, a.y / b.y⟩⟩
instance : Neg Vec2 := ⟨fun a => ⟨-a.x, -a.y⟩⟩

/-- `DVec2::abs` (componentwise). -/
def Vec2.abs (a : Vec2) : Vec2 := ⟨|a.x|, |a.y|⟩

/-- `DVec2::max` (componentwise). -/
def Vec2.cmax (a b : Vec2) : Vec2 := ⟨max a.x b.x, max a.y b.y⟩

/-- Rust `f64::signum` of a (finite, unsigned-zero) value: `1` for `x ≥ 0`, `-1` for `x < 0`. -/
def rsignum (q : ℚ) : ℚ := if q < 0 then -1 else 1

/-- `DVec2::signum` (componentwise Rust `signum`). -/
def Vec2.signum (a : Vec2) : Vec2 := ⟨rsignum a.x, rsignum a.y⟩

/-- glam `DAffine2`: a 2×2 matrix stored as two column vectors plus a translation. -/
structure Affine2 where
  x_axis : Vec2
  y_axis : Vec2
  translation : Vec2
  deriving DecidableEq

/-- `DAffine2::transform_point2`: matrix times point, plus translation. -/
def Affine2.transform_point2 (a : Affine2) (p : Vec2) : Vec2 :=
  ⟨a.x_axis.x * p.x + a.y_axis.x * p.y + a.translation.x,
   a.x_axis.y * p.x + a.y_axis.y * p.y + a.translation.y⟩

/-- `DAffine2::transform_vector2`: matrix times vector (translation ignored). -/
def Affine2.transform_vector2 (a : Affine2) (p : Vec2) : Vec2 :=
  ⟨a.x_axis.x * p.x + a.y_axis.x * p.y,
   a.x_axis.y * p.x + a.y_axis.y * p.y⟩

/-- `DAffine2::inverse`: invert the 2×2 matrix (adjugate times reciprocal
determinant, as in glam's `DMat2::inverse`), then negate the transformed
translation. -/
def Affine2.inverse (a : Affine2) : Affine2 :=
  let det := a.x_axis.x * a.y_axis.y - a.x_axis.y * a.y_axis.x
  let inv_det := 1 / det
  let xa : Vec2 := ⟨a.y_axis.y * inv_det, -a.x_axis.y * inv_det⟩
  let ya : Vec2 := ⟨-a.y_axis.x * inv_det, a.x_axis.x * inv_det⟩
  let m : Affine2 := ⟨xa, ya, ⟨0, 0⟩⟩
  ⟨xa, ya, -(m.transform_vector2 a.translation)⟩

/-- The identity `DAffine2`. -/
def Affine2.identity : Affine2 := ⟨⟨1, 0⟩, ⟨0, 1⟩, ⟨0, 0⟩⟩

/-- `SelectedEdges`: the edges being dragged, the bounds at gesture start, and
the aspect ratio (width/height) captured at gesture start. -/
structure SelectedEdges where
  bounds : Vec2 × Vec2
  top : Bool
  bottom : Bool
  left : Bool
  right : Bool
  aspect_ratio : ℚ
  deriving DecidableEq

/-- `SelectedEdges::new`. -/
def SelectedEdges.new (top bottom left right : Bool) (b0 b1 : Vec2) : SelectedEdges :=
  let size := (b0 - b1).abs
  { bounds := (b0, b1), top, bottom, left, right, aspect_ratio := size.x / size.y }

/-- `SelectedEdges::pivot_from_bounds`. -/
def SelectedEdges.pivot_from_bounds (e : SelectedEdges) (mn mx : Vec2) : Vec2 :=
  ⟨if e.left then mx.x else if e.right then mn.x else (mn.x + mx.x) / 2,
   if e.top then mx.y else if e.bottom then mn.y else (mn.y + mx.y) / 2⟩

/-- `SelectedEdges::calculate_pivot`. -/
def SelectedEdges.calculate_pivot (e : SelectedEdges) : Vec2 :=
  e.pivot_from_bounds e.bounds.1 e.bounds.2

/-- The edge-overwriting step of `new_size` (lines 66–77): starting from the
start bounds, replace the coordinates of the active edges by the local mouse
position. -/
def SelectedEdges.edited_bounds (e : SelectedEdges) (mouse : Vec2) : Vec2 × Vec2 :=
  let mn0 := e.bounds.1
  let mx0 := e.bounds.2
  let mn1 := if e.top then ⟨mn0.x, mouse.y⟩ else mn0
  let mx1 := if e.top then mx0 else if e.bottom then ⟨mx0.x, mouse.y⟩ else mx0
  let mn2 := if e.left then ⟨mouse.x, mn1.y⟩ else mn1
  let mx2 := if e.left then mx1 else if e.right then ⟨mouse.x, mx1.y⟩ else mx1
  (mn2, mx2)

/-- The centering step of `new_size` (lines 80–109).  The float code guards each
ratio with `is_finite()`; for a division of exact values the guard is the test
that the divisor is nonzero. -/
def SelectedEdges.center_adjust (e : SelectedEdges) (center_around mn mx pivot : Vec2) :
    Vec2 × Vec2 × Vec2 :=
  let s1 : Vec2 × Vec2 × Vec2 :=
    if e.top then
      if center_around.y - e.bounds.1.y ≠ 0 then
        let ratio := (center_around.y - mn.y) / (center_around.y - e.bounds.1.y)
        (mn, ⟨mx.x, center_around.y + ratio * (e.bounds.2.y - center_around.y)⟩,
          ⟨pivot.x, center_around.y⟩)
      else (mn, mx, pivot)
    else if e.bottom then
      if e.bounds.2.y - center_around.y ≠ 0 then
        let ratio := (mx.y - center_around.y) / (e.bounds.2.y - center_around.y)
        (⟨mn.x, center_around.y - ratio * (center_around.y - e.bounds.1.y)⟩, mx,
          ⟨pivot.x, center_around.y⟩)
      else (mn, mx, pivot)
    else (mn, mx, pivot)
  let mn1 := s1.1
  let mx1 := s1.2.1
  let p1 := s1.2.2
  if e.left then
    if center_around.x - e.bounds.1.x ≠ 0 then
      let ratio := (center_around.x - mn1.x) / (center_around.x - e.bounds.1.x)
      (mn1, ⟨center_around.x + ratio * (e.bounds.2.x - center_around.x), mx1.y⟩,
        ⟨center_around.x, p1.y⟩)
    else (mn1, mx1, p1)
  else if e.right then
    if e.bounds.2.x - center_around.x ≠ 0 then
      let ratio := (mx1.x - center_around.x) / (e.bounds.2.x - center_around.x)
      (⟨center_around.x - ratio * (center_around.x - e.bounds.1.x), mn1.y⟩, mx1,
        ⟨center_around.x, p1.y⟩)
    else (mn1, mx1, p1)
  else (mn1, mx1, p1)

/-- The choice of constrained size in `new_size` (lines 114–119): `tb` is
`top || bottom`, `lr` is `left || right`, `r` the aspect ratio. -/
def constrain_new_size (tb lr : Bool) (r : ℚ) (size : Vec2) : Vec2 :=
  match tb, lr with
  | true, true =>
      (Vec2.cmax (Vec2.abs ⟨size.x, size.x / r⟩) (Vec2.abs ⟨size.y * r, size.y⟩)) * size.signum
  | true, false => ⟨size.y * r, size.y⟩
  | false, true => ⟨size.x, size.x / r⟩
  | false, false => size

/-- The aspect-constraint step of `new_size` (lines 111–123): pick the new size,
then move `min` so that the pivot keeps its normalized position, and set
`max = min + new_size`.  The `min_pivot` division is unguarded in the source;
over `ℚ` it is total (`x / 0 = 0`) where `f64` would give `NaN`, so the
theorems about this step carry per-axis nonzero-size hypotheses and the
zero-size behaviour is treated in the float model (see the C1 evaluation). -/
def constrain_adjust (tb lr : Bool) (r : ℚ) (mn mx pivot : Vec2) : Vec2 × Vec2 :=
  let size := mx - mn
  let min_pivot := (pivot - mn) / size
  let new_size := constrain_new_size tb lr r size
  let delta_size := new_size - size
  let mn1 := mn - delta_size * min_pivot
  (mn1, mn1 + new_size)

/-- `SelectedEdges::new_size` (lines 63–126): map the mouse into local space,
overwrite the active-edge coordinates, recompute the pivot, optionally center,
optionally constrain to the start aspect ratio, and return `(min, max - min)`. -/
def SelectedEdges.new_size (e : SelectedEdges) (mouse : Vec2) (transform : Affine2)
    (center : Bool) (center_around : Vec2) (constrain : Bool) : Vec2 × Vec2 :=
  let m := transform.inverse.transform_point2 mouse
  let eb := e.edited_bounds m
  let pivot := e.pivot_from_bounds eb.1 eb.2
  let s1 : Vec2 × Vec2 × Vec2 :=
    if center then e.center_adjust center_around eb.1 eb.2 pivot else (eb.1, eb.2, pivot)
  let s2 : Vec2 × Vec2 :=
    if constrain then
      constrain_adjust (e.top || e.bottom) (e.left || e.right) e.aspect_ratio s1.1 s1.2.1 s1.2.2
    else (s1.1, s1.2.1)
  (s2.1, s2.2 - s2.1)

/-- The size delivered by `new_size` is the local mouse-edited size. -/
def SelectedEdges.edited_size (e : SelectedEdges) (m : Vec2) : Vec2 :=
  (e.edited_bounds m).2 - (e.edited_bounds m).1

end ExactModel

/-! ## Exact real model (vector length and axis snapping) -/

namespace RealModel

/-- glam `DVec2`, with exact real components. -/
@[ext] structure Vec2 where
  x : ℝ
  y : ℝ

instance : Add Vec2 := ⟨fun a b => ⟨a.x + b.x, a.y + b.y⟩⟩
instance : Sub Vec2 := ⟨fun a b => ⟨a.x - b.x, a.y - b.y⟩⟩
instance : Neg Vec2 := ⟨fun a => ⟨-a.x, -a.y⟩⟩
instance : HMul Vec2 ℝ Vec2 := ⟨fun a s => ⟨a.x * s, a.y * s⟩⟩

/-- `DVec2::dot`. -/
def dot (a b : Vec2) : ℝ := a.x * b.x + a.y * b.y

/-- `DVec2::perp_dot`. -/
def perp_dot (a b : Vec2) : ℝ := a.x * b.y - a.y * b.x

/-- `DVec2::length`: the square root of the dot product with itself. -/
noncomputable def length (v : Vec2) : ℝ := Real.sqrt (dot v v)

/-- `DVec2::min` (componentwise). -/
noncomputable def cmin (a b : Vec2) : Vec2 := ⟨min a.x b.x, min a.y b.y⟩

/-- `DVec2::max` (componentwise). -/
noncomputable def cmax (a b : Vec2) : Vec2 := ⟨max a.x b.x, max a.y b.y⟩

/-- IEEE-754 `atan2 y x` (the convention used by Rust's `f64::atan2`):
`atan2 0 0 = 0`. -/
noncomputable def atan2 (y x : ℝ) : ℝ :=
  if 0 < x then Real.arctan (y / x)
  else if x < 0 then
    if 0 ≤ y then Real.arctan (y / x) + Real.pi else Real.arctan (y / x) - Real.pi
  else
    if 0 < y then Real.pi / 2 else if y < 0 then -(Real.pi / 2) else 0

/-- glam `DVec2::angle_between`: the signed angle from `v` to `w` in `[-π, π]`.
For non-zero `v` this `atan2` form agrees in exact arithmetic with glam's
`acos`-times-`signum (perp_dot)` implementation, and only such inputs are
exercised by the real-model theorems (glam documents the inputs as required
non-zero); the zero-vector case is handled by `FloatModel.angle_between_acos`. -/
noncomputable def angle_between (v w : Vec2) : ℝ := atan2 (perp_dot v w) (dot v w)

/-- Rust `f64::round` (round half away from zero), landing on an integer. -/
noncomputable def rustRoundZ (x : ℝ) : ℤ := if 0 ≤ x then ⌊x + 1 / 2⌋ else ⌈x - 1 / 2⌉

/-- Rust `f64::round` as a real-valued function. -/
noncomputable def rustRound (x : ℝ) : ℝ := (rustRoundZ x : ℝ)

/-- Rust `f64::to_radians`. -/
noncomputable def toRadians (x : ℝ) : ℝ := x * (Real.pi / 180)

/-- Modelled from the spec: the angular step (in degrees) for axis-snapped
dragging.  The crate's `consts` module is not among the provided sources; §4.1
of the spec describes it as "a fixed step (constant, e.g. 15°)". -/
noncomputable def SELECTION_DRAG_ANGLE : ℝ := 15

/-- Modelled from the spec: the screen-space hit threshold (in pixels) for the
resize handles.  Not among the provided sources; §8 of the spec uses the value
`10` in every worked example. -/
noncomputable def BOUNDS_SELECT_THRESHOLD : ℝ := 10

/-- Modelled from the spec: the screen-space hit threshold (in pixels) for the
rotate ring.  Not among the provided sources; the spec's §8 "Rotate ring"
example uses the value `10`. -/
noncomputable def BOUNDS_ROTATE_THRESHOLD : ℝ := 10

/-- `f64::EPSILON` is `2⁻⁵²`. -/
noncomputable def EPSILON : ℝ := 1 / 2 ^ 52

/-- `axis_align_drag` (lines 150–160): snap the displacement from `start` to
the nearest multiple of the configured angular step, keeping its magnitude. -/
noncomputable def axis_align_drag (axis_align : Bool) (position start : Vec2) : Vec2 :=
  if axis_align then
    let mouse_position := position - start
    let snap_resolution := toRadians SELECTION_DRAG_ANGLE
    let angle := -(angle_between mouse_position ⟨1, 0⟩)
    let snapped_angle := rustRound (angle / snap_resolution) * snap_resolution
    (Vec2.mk (Real.cos snapped_angle) (Real.sin snapped_angle)) * length mouse_position + start
  else position

/-- glam `DAffine2` over exact reals. -/
structure Affine2 where
  x_axis : Vec2
  y_axis : Vec2
  translation : Vec2

/-- `DAffine2::transform_point2`. -/
def Affine2.transform_point2 (a : Affine2) (p : Vec2) : Vec2 :=
  ⟨a.x_axis.x * p.x + a.y_axis.x * p.y + a.translation.x,
   a.x_axis.y * p.x + a.y_axis.y * p.y + a.translation.y⟩

/-- `DAffine2::transform_vector2`. -/
def Affine2.transform_vector2 (a : Affine2) (p : Vec2) : Vec2 :=
  ⟨a.x_axis.x * p.x + a.y_axis.x * p.y,
   a.x_axis.y * p.x + a.y_axis.y * p.y⟩

/-- The determinant of the linear part of a `DAffine2`. -/
def Affine2.det (a : Affine2) : ℝ :=
  a.x_axis.x * a.y_axis.y - a.x_axis.y * a.y_axis.x

/-- `DAffine2::inverse` (adjugate times reciprocal determinant, then the
negated transformed translation). -/
noncomputable def Affine2.inverse (a : Affine2) : Affine2 :=
  let inv_det := 1 / a.det
  let xa : Vec2 := ⟨a.y_axis.y * inv_det, -a.x_axis.y * inv_det⟩
  let ya : Vec2 := ⟨-a.y_axis.x * inv_det, a.x_axis.x * inv_det⟩
  let m : Affine2 := ⟨xa, ya, ⟨0, 0⟩⟩
  ⟨xa, ya, -(m.transform_vector2 a.translation)⟩

/-- The identity `DAffine2`. -/
noncomputable def Affine2.identity : Affine2 := ⟨⟨1, 0⟩, ⟨0, 1⟩, ⟨0, 0⟩⟩

/-- `BoundingBoxManager`.  The source struct also carries
`selected_edges: Option<SelectedEdges>` and the opaque external
`original_transforms` snapshot; neither is read by any of the operations
embedded here, so they are elided. -/
structure BoundingBoxManager where
  bounds : Vec2 × Vec2
  transform : Affine2
  original_bound_transform : Affine2
  opposite_pivot : Vec2
  center_of_transformation : Vec2

/-- The cursor mapped into local space (line 202 / line 243). -/
noncomputable def BoundingBoxManager.local_cursor (m : BoundingBoxManager) (cursor : Vec2) :
    Vec2 :=
  m.transform.inverse.transform_point2 cursor

/-- The resize hit threshold mapped into local space (line 203). -/
noncomputable def BoundingBoxManager.select_threshold (m : BoundingBoxManager) : ℝ :=
  length (m.transform.inverse.transform_vector2 ⟨0, BOUNDS_SELECT_THRESHOLD⟩)

/-- The rotate hit threshold mapped into local space (line 244). -/
noncomputable def BoundingBoxManager.rotate_threshold (m : BoundingBoxManager) : ℝ :=
  length (m.transform.inverse.transform_vector2 ⟨0, BOUNDS_ROTATE_THRESHOLD⟩)

/-- The raw proximity flags of `check_selected_edges` (lines 208–211), in the
order top, bottom, left, right. -/
noncomputable def raw_edges (c mn mx : Vec2) (t : ℝ) : Bool × Bool × Bool × Bool :=
  (decide (|c.y - mn.y| < t), decide (|mx.y - c.y| < t),
   decide (|c.x - mn.x| < t), decide (|mx.x - c.x| < t))

/-- Thin-box priority, vertical span (lines 214–217): on a box whose height sits
inside the doubled threshold, an active left/right flag suppresses top/bottom. -/
noncomputable def thin_adjust_y (c mn mx : Vec2) (t : ℝ) (f : Bool × Bool × Bool × Bool) :
    Bool × Bool × Bool × Bool :=
  if decide (c.y - mn.y + mx.y - c.y < t * 2) && (f.2.2.1 || f.2.2.2)
  then (false, false, f.2.2.1, f.2.2.2) else f

/-- Thin-box priority, horizontal span (lines 218–221), reading the top/bottom
flags already adjusted by the vertical rule. -/
noncomputable def thin_adjust_x (c mn mx : Vec2) (t : ℝ) (f : Bool × Bool × Bool × Bool) :
    Bool × Bool × Bool × Bool :=
  if decide (c.x - mn.x + mx.x - c.x < t * 2) && (f.1 || f.2.1)
  then (f.1, f.2.1, false, false) else f

/-- Degenerate-size suppression (lines 224–231): a box without width loses its
left/right flags, a box without height its top/bottom flags. -/
noncomputable def degenerate_adjust (mn mx : Vec2) (f : Bool × Bool × Bool × Bool) :
    Bool × Bool × Bool × Bool :=
  let f1 := if decide (mx.x - mn.x < EPSILON * 1000) then (f.1, f.2.1, false, false) else f
  if decide (mx.y - mn.y < EPSILON * 1000) then (false, false, f1.2.2.1, f1.2.2.2) else f1

/-- `BoundingBoxManager::check_selected_edges` (lines 201–239). -/
noncomputable def BoundingBoxManager.check_selected_edges (m : BoundingBoxManager)
    (cursor : Vec2) : Option (Bool × Bool × Bool × Bool) :=
  let c := m.local_cursor cursor
  let t := m.select_threshold
  let mn := cmin m.bounds.1 m.bounds.2
  let mx := cmax m.bounds.1 m.bounds.2
  if mn.x - c.x < t ∧ mn.y - c.y < t ∧ c.x - mx.x < t ∧ c.y - mx.y < t then
    let f := degenerate_adjust mn mx
      (thin_adjust_x c mn mx t (thin_adjust_y c mn mx t (raw_edges c mn mx t)))
    if f.1 || f.2.1 || f.2.2.1 || f.2.2.2 then some f else none
  else none

/-- `BoundingBoxManager::check_rotate` (lines 242–253).  The source combines the
two conditions with the non-short-circuiting `&`, which on `bool` agrees with
the logical AND used here. -/
noncomputable def BoundingBoxManager.check_rotate (m : BoundingBoxManager) (cursor : Vec2) :
    Bool :=
  let c := m.local_cursor cursor
  let t := m.rotate_threshold
  let mn := cmin m.bounds.1 m.bounds.2
  let mx := cmax m.bounds.1 m.bounds.2
  let outside_bounds := decide ((mn.x > c.x ∨ c.x > mx.x) ∨ (mn.y > c.y ∨ c.y > mx.y))
  let inside_extended_bounds :=
    decide (mn.x - c.x < t ∧ mn.y - c.y < t ∧ c.x - mx.x < t ∧ c.y - mx.y < t)
  outside_bounds && inside_extended_bounds

/-- The subset of `MouseCursorIcon` variants used by `get_cursor`. -/
inductive MouseCursorIcon where
  | Default
  | NSResize
  | EWResize
  | NWSEResize
  | NESWResize
  | Rotate
  deriving DecidableEq

/-- `BoundingBoxManager::get_cursor` (lines 256–270).  The source reads the
pointer position out of the input preprocessor handle; here it is passed
directly as `cursor`. -/
noncomputable def BoundingBoxManager.get_cursor (m : BoundingBoxManager) (cursor : Vec2)
    (rotate : Bool) : MouseCursorIcon :=
  match m.check_selected_edges cursor with
  | some directions =>
    match directions with
    | (true, _, false, false) | (_, true, false, false) => .NSResize
    | (false, false, true, _) | (false, false, _, true) => .EWResize
    | (true, _, true, _) | (_, true, _, true) => .NWSEResize
    | (true, _, _, true) | (_, true, true, _) => .NESWResize
    | _ => .Default
  | none => if rotate && m.check_rotate cursor then .Rotate else .Default

/-- A concrete manager: the spec's §8 thin box `[(0,0),(100,5)]` under the
identity transform. -/
noncomputable def thinMgr : BoundingBoxManager :=
  ⟨(⟨0, 0⟩, ⟨100, 5⟩), Affine2.identity, Affine2.identity, ⟨0, 0⟩, ⟨0, 0⟩⟩

/-- A concrete manager: the spec's §8 square box `[(0,0),(100,100)]` under the
identity transform. -/
noncomputable def squareMgr : BoundingBoxManager :=
  ⟨(⟨0, 0⟩, ⟨100, 100⟩), Affine2.identity, Affine2.identity, ⟨0, 0⟩, ⟨0, 0⟩⟩

end RealModel

/-! ## Float model: finite rationals together with `+∞`, `-∞` and `NaN` -/

namespace FloatModel

/-- A four-point model of `f64`: a finite (exact) rational, `+∞`, `-∞` or
`NaN`.  Signed zero and overflow are not modelled. -/
inductive Fl where
  | fin (q : ℚ)
  | pinf
  | ninf
  | nan
  deriving DecidableEq

namespace Fl

/-- `f64::is_finite`. -/
def isFinite : Fl → Bool
  | fin _ => true
  | _ => false

/-- IEEE negation. -/
def neg : Fl → Fl
  | fin q => fin (-q)
  | pinf => ninf
  | ninf => pinf
  | nan => nan

/-- IEEE addition (exact on finite values). -/
def add : Fl → Fl → Fl
  | nan, _ => nan
  | _, nan => nan
  | fin a, fin b => fin (a + b)
  | fin _, pinf => pinf
  | fin _, ninf => ninf
  | pinf, fin _ => pinf
  | ninf, fin _ => ninf
  | pinf, pinf => pinf
  | ninf, ninf => ninf
  | pinf, ninf => nan
  | ninf, pinf => nan

/-- IEEE subtraction. -/
def sub (a b : Fl) : Fl := add a (neg b)

/-- IEEE multiplication: `±∞ * 0 = NaN`. -/
def mul : Fl → Fl → Fl
  | nan, _ => nan
  | _, nan => nan
  | fin a, fin b => fin (a * b)
  | fin a, pinf => if a = 0 then nan else if 0 < a then pinf else ninf
  | fin a, ninf => if a = 0 then nan else if 0 < a then ninf else pinf
  | pinf, fin b => if b = 0 then nan else if 0 < b then pinf else ninf
  | ninf, fin b => if b = 0 then nan else if 0 < b then ninf else pinf
  | pinf, pinf => pinf
  | pinf, ninf => ninf
  | ninf, pinf => ninf
  | ninf, ninf => pinf

/-- IEEE division: `0 / 0 = NaN`, `x / 0 = ±∞` for `x ≠ 0` (the zero divisor
stands for `+0`, the only zero produced by the modelled operations),
`finite / ∞ = 0`, `∞ / ∞ = NaN`. -/
def div : Fl → Fl → Fl
  | nan, _ => nan
  | _, nan => nan
  | fin a, fin b =>
      if b = 0 then (if a = 0 then nan else if 0 < a then pinf else ninf)
      else fin (a / b)
  | fin _, pinf => fin 0
  | fin _, ninf => fin 0
  | pinf, fin b => if 0 ≤ b then pinf else ninf
  | ninf, fin b => if 0 ≤ b then ninf else pinf
  | pinf, pinf => nan
  | pinf, ninf => nan
  | ninf, pinf => nan
  | ninf, ninf => nan

/-- `f64::abs`. -/
def abs : Fl → Fl
  | fin q => fin |q|
  | pinf => pinf
  | ninf => pinf
  | nan => nan

/-- IEEE `<` as a boolean: every comparison with `NaN` is false. -/
def lt : Fl → Fl → Bool
  | nan, _ => false
  | _, nan => false
  | fin a, fin b => decide (a < b)
  | fin _, pinf => true
  | fin _, ninf => false
  | pinf, fin _ => false
  | ninf, fin _ => true
  | pinf, pinf => false
  | ninf, ninf => false
  | ninf, pinf => true
  | pinf, ninf => false

/-- Rust `f64::max`: ignores a `NaN` operand. -/
def fmax (a b : Fl) : Fl :=
  if a = nan then b else if b = nan then a else if lt a b then b else a

/-- Rust `f64::signum`: `NaN` for `NaN`, otherwise `±1`. -/
def signum : Fl → Fl
  | fin q => fin (if q < 0 then -1 else 1)
  | pinf => fin 1
  | ninf => fin (-1)
  | nan => nan

end Fl

instance : Add Fl := ⟨Fl.add⟩
instance : Sub Fl := ⟨Fl.sub⟩
instance : Mul Fl := ⟨Fl.mul⟩
instance : Div Fl := ⟨Fl.div⟩
instance : Neg Fl := ⟨Fl.neg⟩

/-- `f64::EPSILON` (`2⁻⁵²`). -/
def EPSILON : Fl := Fl.fin (1 / 2 ^ 52)

/-- glam `DVec2` over the float model. -/
@[ext] structure FVec2 where
  x : Fl
  y : Fl
  deriving DecidableEq

instance : Add FVec2 := ⟨fun a b => ⟨a.x + b.x, a.y + b.y⟩⟩
instance : Sub FVec2 := ⟨fun a b => ⟨a.x - b.x, a.y - b.y⟩⟩
instance : Mul FVec2 := ⟨fun a b => ⟨a.x * b.x, a.y * b.y⟩⟩
instance : Div FVec2 := ⟨fun a b => ⟨a.x / b.x, a.y / b.y⟩⟩
instance : Neg FVec2 := ⟨fun a => ⟨-a.x, -a.y⟩⟩

/-- `DVec2::abs` (componentwise). -/
def FVec2.abs (a : FVec2) : FVec2 := ⟨a.x.abs, a.y.abs⟩

/-- `DVec2::max` (componentwise Rust `f64::max`). -/
def FVec2.cmax (a b : FVec2) : FVec2 := ⟨Fl.fmax a.x b.x, Fl.fmax a.y b.y⟩

/-- `DVec2::signum` (componentwise Rust `f64::signum`). -/
def FVec2.signum (a : FVec2) : FVec2 := ⟨a.x.signum, a.y.signum⟩

/-- glam `DAffine2` over the float model. -/
structure Affine2 where
  x_axis : FVec2
  y_axis : FVec2
  translation : FVec2
  deriving DecidableEq

/-- `DAffine2::transform_point2`. -/
def Affine2.transform_point2 (a : Affine2) (p : FVec2) : FVec2 :=
  ⟨a.x_axis.x * p.x + a.y_axis.x * p.y + a.translation.x,
   a.x_axis.y * p.x + a.y_axis.y * p.y + a.translation.y⟩

/-- `DAffine2::transform_vector2`. -/
def Affine2.transform_vector2 (a : Affine2) (p : FVec2) : FVec2 :=
  ⟨a.x_axis.x * p.x + a.y_axis.x * p.y,
   a.x_axis.y * p.x + a.y_axis.y * p.y⟩

/-- `DAffine2::inverse`. -/
def Affine2.inverse (a : Affine2) : Affine2 :=
  let det := a.x_axis.x * a.y_axis.y - a.x_axis.y * a.y_axis.x
  let inv_det := Fl.fin 1 / det
  let xa : FVec2 := ⟨a.y_axis.y * inv_det, -a.x_axis.y * inv_det⟩
  let ya : FVec2 := ⟨-a.y_axis.x * inv_det, a.x_axis.x * inv_det⟩
  let m : Affine2 := ⟨xa, ya, ⟨Fl.fin 0, Fl.fin 0⟩⟩
  ⟨xa, ya, -(m.transform_vector2 a.translation)⟩

/-- `DAffine2::from_scale`: a diagonal linear part and a zero translation. -/
def Affine2.from_scale (s : FVec2) : Affine2 :=
  ⟨⟨s.x, Fl.fin 0⟩, ⟨Fl.fin 0, s.y⟩, ⟨Fl.fin 0, Fl.fin 0⟩⟩

/-- The identity `DAffine2`. -/
def Affine2.identity : Affine2 :=
  ⟨⟨Fl.fin 1, Fl.fin 0⟩, ⟨Fl.fin 0, Fl.fin 1⟩, ⟨Fl.fin 0, Fl.fin 0⟩⟩

/-- `SelectedEdges` over the float model. -/
structure SelectedEdges where
  bounds : FVec2 × FVec2
  top : Bool
  bottom : Bool
  left : Bool
  right : Bool
  aspect_ratio : Fl
  deriving DecidableEq

/-- `SelectedEdges::new`. -/
def SelectedEdges.new (top bottom left right : Bool) (b0 b1 : FVec2) : SelectedEdges :=
  let size := (b0 - b1).abs
  { bounds := (b0, b1), top, bottom, left, right, aspect_ratio := size.x / size.y }

/-- `SelectedEdges::pivot_from_bounds`. -/
def SelectedEdges.pivot_from_bounds (e : SelectedEdges) (mn mx : FVec2) : FVec2 :=
  ⟨if e.left then mx.x else if e.right then mn.x else (mn.x + mx.x) / Fl.fin 2,
   if e.top then mx.y else if e.bottom then mn.y else (mn.y + mx.y) / Fl.fin 2⟩

/-- The edge-overwriting step of `new_size` (lines 66–77). -/
def SelectedEdges.edited_bounds (e : SelectedEdges) (mouse : FVec2) : FVec2 × FVec2 :=
  let mn0 := e.bounds.1
  let mx0 := e.bounds.2
  let mn1 := if e.top then ⟨mn0.x, mouse.y⟩ else mn0
  let mx1 := if e.top then mx0 else if e.bottom then ⟨mx0.x, mouse.y⟩ else mx0
  let mn2 := if e.left then ⟨mouse.x, mn1.y⟩ else mn1
  let mx2 := if e.left then mx1 else if e.right then ⟨mouse.x, mx1.y⟩ else mx1
  (mn2, mx2)

/-- The vertical half of the centering step of `new_size` (lines 83–95), with
the source's `is_finite()` guards. -/
def SelectedEdges.center_adjust_y (e : SelectedEdges) (center_around mn mx pivot : FVec2) :
    FVec2 × FVec2 × FVec2 :=
  if e.top then
    let ratio := (center_around.y - mn.y) / (center_around.y - e.bounds.1.y)
    if ratio.isFinite then
      (mn, ⟨mx.x, center_around.y + ratio * (e.bounds.2.y - center_around.y)⟩,
        ⟨pivot.x, center_around.y⟩)
    else (mn, mx, pivot)
  else if e.bottom then
    let ratio := (mx.y - center_around.y) / (e.bounds.2.y - center_around.y)
    if ratio.isFinite then
      (⟨mn.x, center_around.y - ratio * (center_around.y - e.bounds.1.y)⟩, mx,
        ⟨pivot.x, center_around.y⟩)
    else (mn, mx, pivot)
  else (mn, mx, pivot)

/-- The horizontal half of the centering step of `new_size` (lines 96–108). -/
def SelectedEdges.center_adjust_x (e : SelectedEdges) (center_around mn mx pivot : FVec2) :
    FVec2 × FVec2 × FVec2 :=
  if e.left then
    let ratio := (center_around.x - mn.x) / (center_around.x - e.bounds.1.x)
    if ratio.isFinite then
      (mn, ⟨center_around.x + ratio * (e.bounds.2.x - center_around.x), mx.y⟩,
        ⟨center_around.x, pivot.y⟩)
    else (mn, mx, pivot)
  else if e.right then
    let ratio := (mx.x - center_around.x) / (e.bounds.2.x - center_around.x)
    if ratio.isFinite then
      (⟨center_around.x - ratio * (center_around.x - e.bounds.1.x), mn.y⟩, mx,
        ⟨center_around.x, pivot.y⟩)
    else (mn, mx, pivot)
  else (mn, mx, pivot)

/-- The centering step of `new_size` (lines 80–109): the vertical rule, then
the horizontal rule on the updated state. -/
def SelectedEdges.center_adjust (e : SelectedEdges) (center_around mn mx pivot : FVec2) :
    FVec2 × FVec2 × FVec2 :=
  let s1 := e.center_adjust_y center_around mn mx pivot
  e.center_adjust_x center_around s1.1 s1.2.1 s1.2.2

/-- The choice of constrained size in `new_size` (lines 114–119). -/
def constrain_new_size (tb lr : Bool) (r : Fl) (size : FVec2) : FVec2 :=
  match tb, lr with
  | true, true =>
      (FVec2.cmax (FVec2.abs ⟨size.x, size.x / r⟩) (FVec2.abs ⟨size.y * r, size.y⟩)) *
        size.signum
  | true, false => ⟨size.y * r, size.y⟩
  | false, true => ⟨size.x, size.x / r⟩
  | false, false => size

/-- The aspect-constraint step of `new_size` (lines 111–123). -/
def constrain_adjust (tb lr : Bool) (r : Fl) (mn mx pivot : FVec2) : FVec2 × FVec2 :=
  let size := mx - mn
  let min_pivot := (pivot - mn) / size
  let new_size := constrain_new_size tb lr r size
  let delta_size := new_size - size
  let mn1 := mn - delta_size * min_pivot
  (mn1, mn1 + new_size)

/-- `SelectedEdges::new_size` (lines 63–126) over the float model. -/
def SelectedEdges.new_size (e : SelectedEdges) (mouse : FVec2) (transform : Affine2)
    (center : Bool) (center_around : FVec2) (constrain : Bool) : FVec2 × FVec2 :=
  let m := transform.inverse.transform_point2 mouse
  let eb := e.edited_bounds m
  let pivot := e.pivot_from_bounds eb.1 eb.2
  let s1 : FVec2 × FVec2 × FVec2 :=
    if center then e.center_adjust center_around eb.1 eb.2 pivot else (eb.1, eb.2, pivot)
  let s2 : FVec2 × FVec2 :=
    if constrain then
      constrain_adjust (e.top || e.bottom) (e.left || e.right) e.aspect_ratio s1.1 s1.2.1 s1.2.2
    else (s1.1, s1.2.1)
  (s2.1, s2.2 - s2.1)

/-- The guarded enlargement factor of `bounds_to_scale_transform`
(lines 130–137): a non-finite raw factor, or an original size below
`1000 × f64::EPSILON` in magnitude, forces that axis's factor to `1`. -/
def SelectedEdges.enlargement_factor (e : SelectedEdges) (size : FVec2) : FVec2 :=
  let old_size := e.bounds.2 - e.bounds.1
  let raw := size / old_size
  ⟨if !raw.x.isFinite || Fl.lt old_size.x.abs (EPSILON * Fl.fin 1000) then Fl.fin 1 else raw.x,
   if !raw.y.isFinite || Fl.lt old_size.y.abs (EPSILON * Fl.fin 1000) then Fl.fin 1 else raw.y⟩

/-- The unguarded pivot of `bounds_to_scale_transform` (line 138):
`(min * factor − position) / (factor − 1)`. -/
def SelectedEdges.raw_pivot (e : SelectedEdges) (position size : FVec2) : FVec2 :=
  let ef := e.enlargement_factor size
  (e.bounds.1 * ef - position) / (ef - ⟨Fl.fin 1, Fl.fin 1⟩)

/-- `SelectedEdges::bounds_to_scale_transform` (lines 129–146): the guarded
scale factor, and the pivot with each non-finite coordinate forced to `0`. -/
def SelectedEdges.bounds_to_scale_transform (e : SelectedEdges) (position size : FVec2) :
    Affine2 × FVec2 :=
  let ef := e.enlargement_factor size
  let raw := e.raw_pivot position size
  let pivot : FVec2 :=
    ⟨if !raw.x.isFinite then Fl.fin 0 else raw.x,
     if !raw.y.isFinite then Fl.fin 0 else raw.y⟩
  (Affine2.from_scale ef, pivot)

/-- glam `DVec2::dot` over the float model. -/
def fdot (a b : FVec2) : Fl := a.x * b.x + a.y * b.y

/-- glam `DVec2::perp_dot` over the float model. -/
def fperp_dot (a b : FVec2) : Fl := a.x * b.y - a.y * b.x

/-- glam `DVec2::length_squared` over the float model. -/
def flength_squared (a : FVec2) : Fl := fdot a a

/-- glam `DVec2::angle_between` as implemented by the glam generation this
code pins (inputs documented as required non-zero):
`acos_approx(dot / sqrt(length_squared · length_squared)) * signum(perp_dot)`.
The transcendental primitives — `facos` for `math::acos_approx` and `fsqrt`
for `math::sqrt` — are abstract parameters; the theorems constrain them only
by the IEEE-754 facts they need (`NaN` propagation, `sqrt 0 = 0`). -/
def angle_between_acos (facos fsqrt : Fl → Fl) (v w : FVec2) : Fl :=
  facos (fdot v w / fsqrt (flength_squared v * flength_squared w)) *
    (fperp_dot v w).signum

/-- glam `DVec2::length` over the float model, via the abstract square root. -/
def flength (fsqrt : Fl → Fl) (v : FVec2) : Fl := fsqrt (fdot v v)

/-- `axis_align_drag` (lines 150–160) over the float model.  The
transcendental primitives (`acos_approx`, `sqrt`, `cos`, `sin`, `round`) are
abstract parameters, and `res` stands for the finite constant
`SELECTION_DRAG_ANGLE.to_radians()` (its value is irrelevant to the traced
behaviour). -/
def axis_align_drag (facos fsqrt fcos fsin fround : Fl → Fl) (res : ℚ)
    (axis_align : Bool) (position start : FVec2) : FVec2 :=
  if axis_align then
    let mouse_position := position - start
    let snap_resolution := Fl.fin res
    let angle := -(angle_between_acos facos fsqrt mouse_position ⟨Fl.fin 1, Fl.fin 0⟩)
    let snapped_angle := fround (angle / snap_resolution) * snap_resolution
    ⟨fcos snapped_angle * flength fsqrt mouse_position + start.x,
     fsin snapped_angle * flength fsqrt mouse_position + start.y⟩
  else position

end FloatModel

/-! ## Helper lemmas -/

namespace ExactModel

@[simp] lemma add_def (a b : Vec2) : a + b = ⟨a.x + b.x, a.y + b.y⟩ := rfl

@[simp] lemma sub_def (a b : Vec2) : a - b = ⟨a.x - b.x, a.y - b.y⟩ := rfl

@[simp] lemma mul_def (a b : Vec2) : a * b = ⟨a.x * b.x, a.y * b.y⟩ := rfl

@[simp] lemma div_def (a b : Vec2) : a / b = ⟨a.x / b.x, a.y / b.y⟩ := rfl

@[simp] lemma neg_def (a : Vec2) : -a = ⟨-a.x, -a.y⟩ := rfl

lemma rsignum_abs (q : ℚ) : |rsignum q| = 1 := by
  unfold rsignum; split <;> norm_num

lemma rsignum_ne_zero (q : ℚ) : rsignum q ≠ 0 := by
  unfold rsignum; split <;> norm_num

lemma aspect_nonneg (t b l r : Bool) (b0 b1 : Vec2) :
    0 ≤ (SelectedEdges.new t b l r b0 b1).aspect_ratio :=
  div_nonneg (abs_nonneg _) (abs_nonneg _)

/-- The constraint-adjustment step returns a box whose size is exactly the
selected constrained size. -/
lemma constrain_adjust_size (tb lr : Bool) (r : ℚ) (mn mx pivot : Vec2) :
    (constrain_adjust tb lr r mn mx pivot).2 - (constrain_adjust tb lr r mn mx pivot).1 =
      constrain_new_size tb lr r (mx - mn) := by
  unfold constrain_adjust
  ext <;> simp

/-- With `center = false` and `constrain = true`, the size returned by
`new_size` is `constrain_new_size` of the mouse-edited size. -/
lemma new_size_constrain_snd (e : SelectedEdges) (mouse : Vec2) (a : Affine2) (c : Vec2) :
    (e.new_size mouse a false c true).2 =
      constrain_new_size (e.top || e.bottom) (e.left || e.right) e.aspect_ratio
        (e.edited_size (a.inverse.transform_point2 mouse)) := by
  exact constrain_adjust_size (e.top || e.bottom) (e.left || e.right) e.aspect_ratio
    (e.edited_bounds (a.inverse.transform_point2 mouse)).1
    (e.edited_bounds (a.inverse.transform_point2 mouse)).2
    (e.pivot_from_bounds (e.edited_bounds (a.inverse.transform_point2 mouse)).1
      (e.edited_bounds (a.inverse.transform_point2 mouse)).2)

/-- On a corner drag with a positive aspect ratio and a nonzero edited size,
the componentwise-larger-candidate rule produces a size with exactly the
requested width/height ratio. -/
lemma corner_ratio (r : ℚ) (hr : 0 < r) (s : Vec2) (hs : ¬(s.x = 0 ∧ s.y = 0)) :
    |(constrain_new_size true true r s).x / (constrain_new_size true true r s).y| = r := by
  have hx : (constrain_new_size true true r s).x = max |s.x| |s.y * r| * rsignum s.x := rfl
  have hy : (constrain_new_size true true r s).y = max |s.x / r| |s.y| * rsignum s.y := rfl
  have h1 : |s.y * r| = |s.y| * r := by
    rw [abs_mul, abs_of_pos hr]
  have h2 : |s.x / r| = |s.x| / r := by
    rw [abs_div, abs_of_pos hr]
  have hM : 0 < max (|s.x| / r) |s.y| := by
    rcases not_and_or.mp hs with h | h
    · exact lt_max_of_lt_left (div_pos (abs_pos.mpr h) hr)
    · exact lt_max_of_lt_right (abs_pos.mpr h)
  have hmax : max |s.x| (|s.y| * r) = r * max (|s.x| / r) |s.y| := by
    rcases le_total (|s.x| / r) |s.y| with h | h
    · rw [max_eq_right h, max_eq_right, mul_comm]
      calc |s.x| = |s.x| / r * r := by field_simp
        _ ≤ |s.y| * r := by exact mul_le_mul_of_nonneg_right h hr.le
    · rw [max_eq_left h, max_eq_left, mul_div_cancel₀ _ hr.ne.symm]
      calc |s.y| * r = r * |s.y| := mul_comm _ _
        _ ≤ r * (|s.x| / r) := by exact mul_le_mul_of_nonneg_left h hr.le
        _ = |s.x| := by field_simp
  have ex : |(constrain_new_size true true r s).x| = r * max (|s.x| / r) |s.y| := by
    rw [hx, abs_mul, rsignum_abs, mul_one,
      abs_of_nonneg (le_trans (abs_nonneg s.x) (le_max_left _ _)), h1, hmax]
  have ey : |(constrain_new_size true true r s).y| = max (|s.x| / r) |s.y| := by
    rw [hy, abs_mul, rsignum_abs, mul_one,
      abs_of_nonneg (le_trans (abs_nonneg s.y) (le_max_right _ _)), h2]
  rw [abs_div, ex, ey, mul_div_assoc, div_self hM.ne.symm, mul_one]

/-- The normalized-pivot-preservation identity on one axis. -/
lemma pivot_preserved_axis (p m s n : ℚ) (hs : s ≠ 0) (hn : n ≠ 0) :
    (p - (m - (n - s) * ((p - m) / s))) / n = (p - m) / s := by
  field_simp
  ring

/-- The constrained size is componentwise nonzero when the pre-constraint size
is and the ratio is nonzero. -/
lemma constrain_new_size_ne_zero (tb lr : Bool) (r : ℚ) (s : Vec2)
    (hr : r ≠ 0) (hx : s.x ≠ 0) (hy : s.y ≠ 0) :
    (constrain_new_size tb lr r s).x ≠ 0 ∧ (constrain_new_size tb lr r s).y ≠ 0 := by
  cases tb <;> cases lr
  · exact ⟨hx, hy⟩
  · exact ⟨hx, div_ne_zero hx hr⟩
  · exact ⟨mul_ne_zero hy hr, hy⟩
  · constructor
    · exact mul_ne_zero
        (ne_of_gt (lt_max_of_lt_left (abs_pos.mpr hx))) (rsignum_ne_zero _)
    · exact mul_ne_zero
        (ne_of_gt (lt_max_of_lt_right (abs_pos.mpr hy))) (rsignum_ne_zero _)

end ExactModel


namespace FloatModel

lemma fl_add_def (a b : Fl) : a + b = Fl.add a b := rfl

lemma fl_sub_def (a b : Fl) : a - b = Fl.sub a b := rfl

lemma fl_mul_def (a b : Fl) : a * b = Fl.mul a b := rfl

lemma fl_div_def (a b : Fl) : a / b = Fl.div a b := rfl

lemma fl_neg_def (a : Fl) : -a = Fl.neg a := rfl

lemma fv_add_def (a b : FVec2) : a + b = ⟨a.x + b.x, a.y + b.y⟩ := rfl

lemma fv_sub_def (a b : FVec2) : a - b = ⟨a.x - b.x, a.y - b.y⟩ := rfl

lemma fv_mul_def (a b : FVec2) : a * b = ⟨a.x * b.x, a.y * b.y⟩ := rfl

lemma fv_div_def (a b : FVec2) : a / b = ⟨a.x / b.x, a.y / b.y⟩ := rfl

lemma fv_neg_def (a : FVec2) : -a = ⟨-a.x, -a.y⟩ := rfl

@[simp] lemma isFinite_fin (q : ℚ) : (Fl.fin q).isFinite = true := rfl

@[simp] lemma isFinite_pinf : Fl.pinf.isFinite = false := rfl

@[simp] lemma isFinite_ninf : Fl.ninf.isFinite = false := rfl

@[simp] lemma isFinite_nan : Fl.nan.isFinite = false := rfl

/-- The `1`-guard of `enlargement_factor` always yields a finite value. -/
lemma guard_one_finite (c : Bool) (b : Fl) :
    (if !b.isFinite || c then Fl.fin 1 else b).isFinite = true := by
  cases hb : b.isFinite <;> cases c <;> simp [hb]

/-- The `0`-guard of the pivot always yields a finite value. -/
lemma guard_zero_finite (b : Fl) :
    (if !b.isFinite then Fl.fin 0 else b).isFinite = true := by
  cases hb : b.isFinite <;> simp [hb]

/-- The horizontal centering rule does not touch the `y` components. -/
lemma center_adjust_x_preserves_y (e : SelectedEdges) (c mn mx p : FVec2) :
    (e.center_adjust_x c mn mx p).1.y = mn.y ∧
    (e.center_adjust_x c mn mx p).2.1.y = mx.y ∧
    (e.center_adjust_x c mn mx p).2.2.y = p.y := by
  unfold SelectedEdges.center_adjust_x
  cases hL : e.left <;> cases hR : e.right <;> simp [hL, hR] <;> split <;> simp

/-- The vertical centering rule does not touch the `x` components. -/
lemma center_adjust_y_preserves_x (e : SelectedEdges) (c mn mx p : FVec2) :
    (e.center_adjust_y c mn mx p).1.x = mn.x ∧
    (e.center_adjust_y c mn mx p).2.1.x = mx.x ∧
    (e.center_adjust_y c mn mx p).2.2.x = p.x := by
  unfold SelectedEdges.center_adjust_y
  cases hT : e.top <;> cases hB : e.bottom <;> simp [hT, hB] <;> split <;> simp

lemma center_adjust_y_top_nonfinite (e : SelectedEdges) (c mn mx p : FVec2)
    (hT : e.top = true)
    (h : ((c.y - mn.y) / (c.y - e.bounds.1.y)).isFinite = false) :
    e.center_adjust_y c mn mx p = (mn, mx, p) := by
  unfold SelectedEdges.center_adjust_y
  simp [hT, h]

lemma center_adjust_y_top_finite (e : SelectedEdges) (c mn mx p : FVec2)
    (hT : e.top = true)
    (h : ((c.y - mn.y) / (c.y - e.bounds.1.y)).isFinite = true) :
    e.center_adjust_y c mn mx p =
      (mn, ⟨mx.x, c.y + ((c.y - mn.y) / (c.y - e.bounds.1.y)) * (e.bounds.2.y - c.y)⟩,
        ⟨p.x, c.y⟩) := by
  unfold SelectedEdges.center_adjust_y
  simp [hT, h]

lemma center_adjust_y_bottom_nonfinite (e : SelectedEdges) (c mn mx p : FVec2)
    (hT : e.top = false) (hB : e.bottom = true)
    (h : ((mx.y - c.y) / (e.bounds.2.y - c.y)).isFinite = false) :
    e.center_adjust_y c mn mx p = (mn, mx, p) := by
  unfold SelectedEdges.center_adjust_y
  simp [hT, hB, h]

lemma center_adjust_y_bottom_finite (e : SelectedEdges) (c mn mx p : FVec2)
    (hT : e.top = false) (hB : e.bottom = true)
    (h : ((mx.y - c.y) / (e.bounds.2.y - c.y)).isFinite = true) :
    e.center_adjust_y c mn mx p =
      (⟨mn.x, c.y - ((mx.y - c.y) / (e.bounds.2.y - c.y)) * (c.y - e.bounds.1.y)⟩, mx,
        ⟨p.x, c.y⟩) := by
  unfold SelectedEdges.center_adjust_y
  simp [hT, hB, h]

lemma center_adjust_y_none (e : SelectedEdges) (c mn mx p : FVec2)
    (hT : e.top = false) (hB : e.bottom = false) :
    e.center_adjust_y c mn mx p = (mn, mx, p) := by
  unfold SelectedEdges.center_adjust_y
  simp [hT, hB]

lemma center_adjust_x_left_nonfinite (e : SelectedEdges) (c mn mx p : FVec2)
    (hL : e.left = true)
    (h : ((c.x - mn.x) / (c.x - e.bounds.1.x)).isFinite = false) :
    e.center_adjust_x c mn mx p = (mn, mx, p) := by
  unfold SelectedEdges.center_adjust_x
  simp [hL, h]

lemma center_adjust_x_left_finite (e : SelectedEdges) (c mn mx p : FVec2)
    (hL : e.left = true)
    (h : ((c.x - mn.x) / (c.x - e.bounds.1.x)).isFinite = true) :
    e.center_adjust_x c mn mx p =
      (mn, ⟨c.x + ((c.x - mn.x) / (c.x - e.bounds.1.x)) * (e.bounds.2.x - c.x), mx.y⟩,
        ⟨c.x, p.y⟩) := by
  unfold SelectedEdges.center_adjust_x
  simp [hL, h]

lemma center_adjust_x_right_nonfinite (e : SelectedEdges) (c mn mx p : FVec2)
    (hL : e.left = false) (hR : e.right = true)
    (h : ((mx.x - c.x) / (e.bounds.2.x - c.x)).isFinite = false) :
    e.center_adjust_x c mn mx p = (mn, mx, p) := by
  unfold SelectedEdges.center_adjust_x
  simp [hL, hR, h]

lemma center_adjust_x_right_finite (e : SelectedEdges) (c mn mx p : FVec2)
    (hL : e.left = false) (hR : e.right = true)
    (h : ((mx.x - c.x) / (e.bounds.2.x - c.x)).isFinite = true) :
    e.center_adjust_x c mn mx p =
      (⟨c.x - ((mx.x - c.x) / (e.bounds.2.x - c.x)) * (c.x - e.bounds.1.x), mn.y⟩, mx,
        ⟨c.x, p.y⟩) := by
  unfold SelectedEdges.center_adjust_x
  simp [hL, hR, h]

lemma center_adjust_x_none (e : SelectedEdges) (c mn mx p : FVec2)
    (hL : e.left = false) (hR : e.right = false) :
    e.center_adjust_x c mn mx p = (mn, mx, p) := by
  unfold SelectedEdges.center_adjust_x
  simp [hL, hR]

end FloatModel

/-! ## Claims -/

/-- **C5.** In `new_size` with `constrain = true`, writing `size`, `min`,
`pivot` for the values before the constraint adjustment and `new_size`, `min'`
for the values after (`min' = min − (new_size − size) * (pivot − min)/size`,
`max' = min' + new_size`), the pivot's normalized position is preserved on each
axis: `(pivot − min')/new_size = (pivot − min)/size`, for every state whose
per-axis sizes are nonzero (with a nonzero aspect ratio, the constrained size
is then automatically nonzero as well). -/
theorem C5_pivot_normalized_preserved (tb lr : Bool) (r : ℚ)
    (mn mx pivot : ExactModel.Vec2)
    (hr : r ≠ 0) (hx : (mx - mn).x ≠ 0) (hy : (mx - mn).y ≠ 0) :
    (pivot.x - (ExactModel.constrain_adjust tb lr r mn mx pivot).1.x) /
        (ExactModel.constrain_new_size tb lr r (mx - mn)).x =
      (pivot.x - mn.x) / (mx - mn).x ∧
    (pivot.y - (ExactModel.constrain_adjust tb lr r mn mx pivot).1.y) /
        (ExactModel.constrain_new_size tb lr r (mx - mn)).y =
      (pivot.y - mn.y) / (mx - mn).y := by
  obtain ⟨hnx, hny⟩ := ExactModel.constrain_new_size_ne_zero tb lr r (mx - mn) hr hx hy
  constructor
  · have h : (ExactModel.constrain_adjust tb lr r mn mx pivot).1.x =
        mn.x - ((ExactModel.constrain_new_size tb lr r (mx - mn)).x - (mx - mn).x) *
          ((pivot.x - mn.x) / (mx - mn).x) := rfl
    rw [h]
    exact ExactModel.pivot_preserved_axis _ _ _ _ hx hnx
  · have h : (ExactModel.constrain_adjust tb lr r mn mx pivot).1.y =
        mn.y - ((ExactModel.constrain_new_size tb lr r (mx - mn)).y - (mx - mn).y) *
          ((pivot.y - mn.y) / (mx - mn).y) := rfl
    rw [h]
    exact ExactModel.pivot_preserved_axis _ _ _ _ hy hny

/-- Witness for C5 at `tb = true`, `lr = false`, `r = 2`, `min = (0,0)`,
`max = (4,2)`, `pivot = (3,1)`. -/
theorem C5_pivot_normalized_preserved_witness :
    ((2 : ℚ) ≠ 0 ∧ (((⟨4, 2⟩ : ExactModel.Vec2) - ⟨0, 0⟩).x ≠ 0) ∧
      (((⟨4, 2⟩ : ExactModel.Vec2) - ⟨0, 0⟩).y ≠ 0)) ∧
    ((((⟨3, 1⟩ : ExactModel.Vec2).x -
        (ExactModel.constrain_adjust true false 2 ⟨0, 0⟩ ⟨4, 2⟩ ⟨3, 1⟩).1.x) /
        (ExactModel.constrain_new_size true false 2
          ((⟨4, 2⟩ : ExactModel.Vec2) - ⟨0, 0⟩)).x =
      ((⟨3, 1⟩ : ExactModel.Vec2).x - (⟨0, 0⟩ : ExactModel.Vec2).x) /
        ((⟨4, 2⟩ : ExactModel.Vec2) - ⟨0, 0⟩).x) ∧
      (((⟨3, 1⟩ : ExactModel.Vec2).y -
        (ExactModel.constrain_adjust true false 2 ⟨0, 0⟩ ⟨4, 2⟩ ⟨3, 1⟩).1.y) /
        (ExactModel.constrain_new_size true false 2
          ((⟨4, 2⟩ : ExactModel.Vec2) - ⟨0, 0⟩)).y =
      ((⟨3, 1⟩ : ExactModel.Vec2).y - (⟨0, 0⟩ : ExactModel.Vec2).y) /
        ((⟨4, 2⟩ : ExactModel.Vec2) - ⟨0, 0⟩).y)) :=
  ⟨⟨by norm_num, by norm_num, by norm_num⟩,
    C5_pivot_normalized_preserved true false 2 ⟨0, 0⟩ ⟨4, 2⟩ ⟨3, 1⟩
      (by norm_num) (by norm_num) (by norm_num)⟩

/-- **C4** (amended): for every `SelectedEdges` with finite nonzero aspect
ratio (in this exact model: `aspect_ratio ≠ 0`, since a zero start height makes
the rational ratio `0` where the float one is non-finite) on a corner drag, and
every pointer and transform whose mouse-edited size is nonzero on each axis
(the mapped pointer lies on neither of the two axis-aligned lines through the
fixed opposite corner — on such a line the `f64` normalized pivot is `0/0` and
`NaN` reaches the result), `new_size` with `constrain = true` and
`center = false` returns a size with `|size.x / size.y|` equal to the captured
aspect ratio.  With both axes nonzero every division on the traced path has a
nonzero divisor, so the exact model is faithful here. -/
theorem C4_corner_aspect_lock (top bottom left right : Bool)
    (b0 b1 mouse center_around : ExactModel.Vec2) (a : ExactModel.Affine2)
    (e : ExactModel.SelectedEdges)
    (he : e = ExactModel.SelectedEdges.new top bottom left right b0 b1)
    (htb : (e.top || e.bottom) = true) (hlr : (e.left || e.right) = true)
    (hr : e.aspect_ratio ≠ 0)
    (hsx : (e.edited_size (a.inverse.transform_point2 mouse)).x ≠ 0)
    (hsy : (e.edited_size (a.inverse.transform_point2 mouse)).y ≠ 0) :
    |(e.new_size mouse a false center_around true).2.x /
        (e.new_size mouse a false center_around true).2.y| = e.aspect_ratio := by
  subst he
  have hr0 : 0 < (ExactModel.SelectedEdges.new top bottom left right b0 b1).aspect_ratio :=
    lt_of_le_of_ne (ExactModel.aspect_nonneg top bottom left right b0 b1) (Ne.symm hr)
  rw [ExactModel.new_size_constrain_snd, htb, hlr]
  exact ExactModel.corner_ratio _ hr0 _ (fun hand => hsx hand.1)

/-- Counterexample to C4 as stated: for the box `[(0,0),(100,50)]` (aspect
ratio 2) with the top-left corner dragged exactly onto the opposite corner
`(100,50)`, the returned size is `(0,0)` and its width/height ratio is not the
aspect ratio (in `f64` it is `NaN`; in this exact model it is `0 ≠ 2`). -/
theorem C4_counterexample :
    ¬(|((ExactModel.SelectedEdges.new true false true false ⟨0, 0⟩ ⟨100, 50⟩).new_size
          ⟨100, 50⟩ ExactModel.Affine2.identity false ⟨0, 0⟩ true).2.x /
        ((ExactModel.SelectedEdges.new true false true false ⟨0, 0⟩ ⟨100, 50⟩).new_size
          ⟨100, 50⟩ ExactModel.Affine2.identity false ⟨0, 0⟩ true).2.y| =
      (ExactModel.SelectedEdges.new true false true false ⟨0, 0⟩ ⟨100, 50⟩).aspect_ratio) := by
  norm_num [ExactModel.SelectedEdges.new, ExactModel.SelectedEdges.new_size,
    ExactModel.SelectedEdges.edited_bounds, ExactModel.SelectedEdges.pivot_from_bounds,
    ExactModel.SelectedEdges.center_adjust, ExactModel.constrain_adjust,
    ExactModel.constrain_new_size, ExactModel.Affine2.inverse, ExactModel.Affine2.identity,
    ExactModel.Affine2.transform_point2, ExactModel.Affine2.transform_vector2,
    ExactModel.Vec2.abs, ExactModel.Vec2.cmax, ExactModel.Vec2.signum, ExactModel.rsignum]

/-- Witness for C4 at the box `[(0,0),(100,50)]`, top-left corner dragged to
`(60,30)` under the identity transform (edited size `(40,20)`, nonzero on both
axes). -/
theorem C4_corner_aspect_lock_witness :
    (((ExactModel.SelectedEdges.new true false true false ⟨0, 0⟩ ⟨100, 50⟩).top ||
        (ExactModel.SelectedEdges.new true false true false ⟨0, 0⟩ ⟨100, 50⟩).bottom) = true ∧
      ((ExactModel.SelectedEdges.new true false true false ⟨0, 0⟩ ⟨100, 50⟩).left ||
        (ExactModel.SelectedEdges.new true false true false ⟨0, 0⟩ ⟨100, 50⟩).right) = true ∧
      (ExactModel.SelectedEdges.new true false true false ⟨0, 0⟩ ⟨100, 50⟩).aspect_ratio ≠ 0 ∧
      ((ExactModel.SelectedEdges.new true false true false ⟨0, 0⟩ ⟨100, 50⟩).edited_size
        (ExactModel.Affine2.identity.inverse.transform_point2 ⟨60, 30⟩)).x ≠ 0 ∧
      ((ExactModel.SelectedEdges.new true false true false ⟨0, 0⟩ ⟨100, 50⟩).edited_size
        (ExactModel.Affine2.identity.inverse.transform_point2 ⟨60, 30⟩)).y ≠ 0) ∧
    |((ExactModel.SelectedEdges.new true false true false ⟨0, 0⟩ ⟨100, 50⟩).new_size
        ⟨60, 30⟩ ExactModel.Affine2.identity false ⟨0, 0⟩ true).2.x /
      ((ExactModel.SelectedEdges.new true false true false ⟨0, 0⟩ ⟨100, 50⟩).new_size
        ⟨60, 30⟩ ExactModel.Affine2.identity false ⟨0, 0⟩ true).2.y| =
      (ExactModel.SelectedEdges.new true false true false ⟨0, 0⟩ ⟨100, 50⟩).aspect_ratio :=
  ⟨⟨rfl, rfl, by norm_num [ExactModel.SelectedEdges.new, ExactModel.Vec2.abs],
      by norm_num [ExactModel.SelectedEdges.new, ExactModel.SelectedEdges.edited_size,
        ExactModel.SelectedEdges.edited_bounds, ExactModel.Affine2.inverse,
        ExactModel.Affine2.identity, ExactModel.Affine2.transform_point2,
        ExactModel.Affine2.transform_vector2],
      by norm_num [ExactModel.SelectedEdges.new, ExactModel.SelectedEdges.edited_size,
        ExactModel.SelectedEdges.edited_bounds, ExactModel.Affine2.inverse,
        ExactModel.Affine2.identity, ExactModel.Affine2.transform_point2,
        ExactModel.Affine2.transform_vector2]⟩,
    C4_corner_aspect_lock true false true false ⟨0, 0⟩ ⟨100, 50⟩ ⟨60, 30⟩ ⟨0, 0⟩
      ExactModel.Affine2.identity _ rfl rfl rfl
      (by norm_num [ExactModel.SelectedEdges.new, ExactModel.Vec2.abs])
      (by norm_num [ExactModel.SelectedEdges.new, ExactModel.SelectedEdges.edited_size,
        ExactModel.SelectedEdges.edited_bounds, ExactModel.Affine2.inverse,
        ExactModel.Affine2.identity, ExactModel.Affine2.transform_point2,
        ExactModel.Affine2.transform_vector2])
      (by norm_num [ExactModel.SelectedEdges.new, ExactModel.SelectedEdges.edited_size,
        ExactModel.SelectedEdges.edited_bounds, ExactModel.Affine2.inverse,
        ExactModel.Affine2.identity, ExactModel.Affine2.transform_point2,
        ExactModel.Affine2.transform_vector2])⟩

/-- **C6.** For finite target position and size and any gesture-start bounds,
`bounds_to_scale_transform` returns a scale transform and pivot with no
`NaN`/`±∞` component: each axis factor is forced to `1` when the raw factor is
non-finite or the original size on that axis is below `1000 × f64::EPSILON` in
magnitude, and each pivot coordinate is forced to `0` when non-finite. -/
theorem C6_scale_transform_never_nonfinite (e : FloatModel.SelectedEdges)
    (position size : FloatModel.FVec2)
    (hp : position.x.isFinite = true ∧ position.y.isFinite = true)
    (hs : size.x.isFinite = true ∧ size.y.isFinite = true) :
    (((e.bounds_to_scale_transform position size).1.x_axis.x.isFinite = true ∧
      (e.bounds_to_scale_transform position size).1.y_axis.y.isFinite = true ∧
      (e.bounds_to_scale_transform position size).2.x.isFinite = true ∧
      (e.bounds_to_scale_transform position size).2.y.isFinite = true) ∧
     ((e.bounds_to_scale_transform position size).1.x_axis.y = FloatModel.Fl.fin 0 ∧
      (e.bounds_to_scale_transform position size).1.y_axis.x = FloatModel.Fl.fin 0 ∧
      (e.bounds_to_scale_transform position size).1.translation =
        ⟨FloatModel.Fl.fin 0, FloatModel.Fl.fin 0⟩)) ∧
    (((!(size / (e.bounds.2 - e.bounds.1)).x.isFinite ||
        FloatModel.Fl.lt (e.bounds.2 - e.bounds.1).x.abs
          (FloatModel.EPSILON * FloatModel.Fl.fin 1000)) = true →
        (e.enlargement_factor size).x = FloatModel.Fl.fin 1) ∧
     ((!(size / (e.bounds.2 - e.bounds.1)).y.isFinite ||
        FloatModel.Fl.lt (e.bounds.2 - e.bounds.1).y.abs
          (FloatModel.EPSILON * FloatModel.Fl.fin 1000)) = true →
        (e.enlargement_factor size).y = FloatModel.Fl.fin 1) ∧
     ((e.raw_pivot position size).x.isFinite = false →
        (e.bounds_to_scale_transform position size).2.x = FloatModel.Fl.fin 0) ∧
     ((e.raw_pivot position size).y.isFinite = false →
        (e.bounds_to_scale_transform position size).2.y = FloatModel.Fl.fin 0)) := by
  refine ⟨⟨⟨?_, ?_, ?_, ?_⟩, rfl, rfl, rfl⟩, fun h => ?_, fun h => ?_, fun h => ?_, fun h => ?_⟩
  · exact FloatModel.guard_one_finite _ _
  · exact FloatModel.guard_one_finite _ _
  · exact FloatModel.guard_zero_finite _
  · exact FloatModel.guard_zero_finite _
  · exact if_pos h
  · exact if_pos h
  · show (if !(e.raw_pivot position size).x.isFinite then FloatModel.Fl.fin 0
      else (e.raw_pivot position size).x) = FloatModel.Fl.fin 0
    rw [h]
    rfl
  · show (if !(e.raw_pivot position size).y.isFinite then FloatModel.Fl.fin 0
      else (e.raw_pivot position size).y) = FloatModel.Fl.fin 0
    rw [h]
    rfl

/-- Witness for C6 at the degenerate start box `[(3,4),(3,4)]` (zero width and
height), target position `(5,6)`, target size `(10,20)`. -/
theorem C6_scale_transform_never_nonfinite_witness :
    ((FloatModel.SelectedEdges.new false true false true ⟨FloatModel.Fl.fin 3, FloatModel.Fl.fin 4⟩
        ⟨FloatModel.Fl.fin 3, FloatModel.Fl.fin 4⟩).bounds_to_scale_transform
        ⟨FloatModel.Fl.fin 5, FloatModel.Fl.fin 6⟩
        ⟨FloatModel.Fl.fin 10, FloatModel.Fl.fin 20⟩).1.x_axis.x.isFinite = true ∧
    ((FloatModel.SelectedEdges.new false true false true ⟨FloatModel.Fl.fin 3, FloatModel.Fl.fin 4⟩
        ⟨FloatModel.Fl.fin 3, FloatModel.Fl.fin 4⟩).bounds_to_scale_transform
        ⟨FloatModel.Fl.fin 5, FloatModel.Fl.fin 6⟩
        ⟨FloatModel.Fl.fin 10, FloatModel.Fl.fin 20⟩).1.y_axis.y.isFinite = true ∧
    ((FloatModel.SelectedEdges.new false true false true ⟨FloatModel.Fl.fin 3, FloatModel.Fl.fin 4⟩
        ⟨FloatModel.Fl.fin 3, FloatModel.Fl.fin 4⟩).bounds_to_scale_transform
        ⟨FloatModel.Fl.fin 5, FloatModel.Fl.fin 6⟩
        ⟨FloatModel.Fl.fin 10, FloatModel.Fl.fin 20⟩).2.x.isFinite = true ∧
    ((FloatModel.SelectedEdges.new false true false true ⟨FloatModel.Fl.fin 3, FloatModel.Fl.fin 4⟩
        ⟨FloatModel.Fl.fin 3, FloatModel.Fl.fin 4⟩).bounds_to_scale_transform
        ⟨FloatModel.Fl.fin 5, FloatModel.Fl.fin 6⟩
        ⟨FloatModel.Fl.fin 10, FloatModel.Fl.fin 20⟩).2.y.isFinite = true :=
  (C6_scale_transform_never_nonfinite
    (FloatModel.SelectedEdges.new false true false true ⟨FloatModel.Fl.fin 3, FloatModel.Fl.fin 4⟩
      ⟨FloatModel.Fl.fin 3, FloatModel.Fl.fin 4⟩)
    ⟨FloatModel.Fl.fin 5, FloatModel.Fl.fin 6⟩
    ⟨FloatModel.Fl.fin 10, FloatModel.Fl.fin 20⟩ ⟨rfl, rfl⟩ ⟨rfl, rfl⟩).1.1

/-- **C8.** In the centering step of `new_size`, centering is applied
independently per axis and never fails: on each active-edge axis whose
centering ratio is non-finite, the box and that axis's pivot coordinate keep
their non-centered values; on each axis with a finite ratio, the opposite edge
is mirrored proportionally about `center_around` and that axis's pivot
coordinate becomes `center_around`.  (Each conjunct constrains one axis's
outputs by that axis's inputs alone, which is the per-axis independence.) -/
theorem C8_centering_per_axis (e : FloatModel.SelectedEdges)
    (c mn mx pivot : FloatModel.FVec2) :
    (e.top = true →
      (((c.y - mn.y) / (c.y - e.bounds.1.y)).isFinite = false →
        (e.center_adjust c mn mx pivot).1.y = mn.y ∧
        (e.center_adjust c mn mx pivot).2.1.y = mx.y ∧
        (e.center_adjust c mn mx pivot).2.2.y = pivot.y) ∧
      (((c.y - mn.y) / (c.y - e.bounds.1.y)).isFinite = true →
        (e.center_adjust c mn mx pivot).1.y = mn.y ∧
        (e.center_adjust c mn mx pivot).2.1.y =
          c.y + ((c.y - mn.y) / (c.y - e.bounds.1.y)) * (e.bounds.2.y - c.y) ∧
        (e.center_adjust c mn mx pivot).2.2.y = c.y)) ∧
    (e.top = false → e.bottom = true →
      (((mx.y - c.y) / (e.bounds.2.y - c.y)).isFinite = false →
        (e.center_adjust c mn mx pivot).1.y = mn.y ∧
        (e.center_adjust c mn mx pivot).2.1.y = mx.y ∧
        (e.center_adjust c mn mx pivot).2.2.y = pivot.y) ∧
      (((mx.y - c.y) / (e.bounds.2.y - c.y)).isFinite = true →
        (e.center_adjust c mn mx pivot).1.y =
          c.y - ((mx.y - c.y) / (e.bounds.2.y - c.y)) * (c.y - e.bounds.1.y) ∧
        (e.center_adjust c mn mx pivot).2.1.y = mx.y ∧
        (e.center_adjust c mn mx pivot).2.2.y = c.y)) ∧
    (e.top = false → e.bottom = false →
      (e.center_adjust c mn mx pivot).1.y = mn.y ∧
      (e.center_adjust c mn mx pivot).2.1.y = mx.y ∧
      (e.center_adjust c mn mx pivot).2.2.y = pivot.y) ∧
    (e.left = true →
      (((c.x - mn.x) / (c.x - e.bounds.1.x)).isFinite = false →
        (e.center_adjust c mn mx pivot).1.x = mn.x ∧
        (e.center_adjust c mn mx pivot).2.1.x = mx.x ∧
        (e.center_adjust c mn mx pivot).2.2.x = pivot.x) ∧
      (((c.x - mn.x) / (c.x - e.bounds.1.x)).isFinite = true →
        (e.center_adjust c mn mx pivot).1.x = mn.x ∧
        (e.center_adjust c mn mx pivot).2.1.x =
          c.x + ((c.x - mn.x) / (c.x - e.bounds.1.x)) * (e.bounds.2.x - c.x) ∧
        (e.center_adjust c mn mx pivot).2.2.x = c.x)) ∧
    (e.left = false → e.right = true →
      (((mx.x - c.x) / (e.bounds.2.x - c.x)).isFinite = false →
        (e.center_adjust c mn mx pivot).1.x = mn.x ∧
        (e.center_adjust c mn mx pivot).2.1.x = mx.x ∧
        (e.center_adjust c mn mx pivot).2.2.x = pivot.x) ∧
      (((mx.x - c.x) / (e.bounds.2.x - c.x)).isFinite = true →
        (e.center_adjust c mn mx pivot).1.x =
          c.x - ((mx.x - c.x) / (e.bounds.2.x - c.x)) * (c.x - e.bounds.1.x) ∧
        (e.center_adjust c mn mx pivot).2.1.x = mx.x ∧
        (e.center_adjust c mn mx pivot).2.2.x = c.x)) ∧
    (e.left = false → e.right = false →
      (e.center_adjust c mn mx pivot).1.x = mn.x ∧
      (e.center_adjust c mn mx pivot).2.1.x = mx.x ∧
      (e.center_adjust c mn mx pivot).2.2.x = pivot.x) := by
  obtain ⟨px1, px2, px3⟩ := FloatModel.center_adjust_y_preserves_x e c mn mx pivot
  refine ⟨fun hT => ⟨fun hnf => ?_, fun hf => ?_⟩,
    fun hT hB => ⟨fun hnf => ?_, fun hf => ?_⟩, fun hT hB => ?_,
    fun hL => ⟨fun hnf => ?_, fun hf => ?_⟩,
    fun hL hR => ⟨fun hnf => ?_, fun hf => ?_⟩, fun hL hR => ?_⟩
  · simp only [FloatModel.SelectedEdges.center_adjust,
      FloatModel.center_adjust_y_top_nonfinite e c mn mx pivot hT hnf]
    exact FloatModel.center_adjust_x_preserves_y e c mn mx pivot
  · simp only [FloatModel.SelectedEdges.center_adjust,
      FloatModel.center_adjust_y_top_finite e c mn mx pivot hT hf]
    exact FloatModel.center_adjust_x_preserves_y e c mn _ _
  · simp only [FloatModel.SelectedEdges.center_adjust,
      FloatModel.center_adjust_y_bottom_nonfinite e c mn mx pivot hT hB hnf]
    exact FloatModel.center_adjust_x_preserves_y e c mn mx pivot
  · simp only [FloatModel.SelectedEdges.center_adjust,
      FloatModel.center_adjust_y_bottom_finite e c mn mx pivot hT hB hf]
    exact FloatModel.center_adjust_x_preserves_y e c _ mx _
  · simp only [FloatModel.SelectedEdges.center_adjust,
      FloatModel.center_adjust_y_none e c mn mx pivot hT hB]
    exact FloatModel.center_adjust_x_preserves_y e c mn mx pivot
  · simp only [FloatModel.SelectedEdges.center_adjust]
    rw [FloatModel.center_adjust_x_left_nonfinite e c _ _ _ hL (by rw [px1]; exact hnf)]
    exact ⟨px1, px2, px3⟩
  · simp only [FloatModel.SelectedEdges.center_adjust]
    rw [FloatModel.center_adjust_x_left_finite e c _ _ _ hL (by rw [px1]; exact hf)]
    exact ⟨px1, by rw [px1], rfl⟩
  · simp only [FloatModel.SelectedEdges.center_adjust]
    rw [FloatModel.center_adjust_x_right_nonfinite e c _ _ _ hL hR (by rw [px2]; exact hnf)]
    exact ⟨px1, px2, px3⟩
  · simp only [FloatModel.SelectedEdges.center_adjust]
    rw [FloatModel.center_adjust_x_right_finite e c _ _ _ hL hR (by rw [px2]; exact hf)]
    exact ⟨by rw [px2], px2, rfl⟩
  · simp only [FloatModel.SelectedEdges.center_adjust]
    rw [FloatModel.center_adjust_x_none e c _ _ _ hL hR]
    exact ⟨px1, px2, px3⟩

/-- Witness for C8: the start box `[(0,0),(10,20)]` with the top edge active,
`center_around = (5,0)` with `center_around.y` equal to the start box's top
edge, so the centering ratio is non-finite and the vertical axis stays
uncentered. -/
theorem C8_centering_per_axis_witness :
    ((FloatModel.SelectedEdges.new true false false false
        ⟨FloatModel.Fl.fin 0, FloatModel.Fl.fin 0⟩
        ⟨FloatModel.Fl.fin 10, FloatModel.Fl.fin 20⟩).center_adjust
        ⟨FloatModel.Fl.fin 5, FloatModel.Fl.fin 0⟩
        ⟨FloatModel.Fl.fin 0, FloatModel.Fl.fin 7⟩
        ⟨FloatModel.Fl.fin 10, FloatModel.Fl.fin 20⟩
        ⟨FloatModel.Fl.fin 5, FloatModel.Fl.fin 20⟩).1.y = FloatModel.Fl.fin 7 ∧
    ((FloatModel.SelectedEdges.new true false false false
        ⟨FloatModel.Fl.fin 0, FloatModel.Fl.fin 0⟩
        ⟨FloatModel.Fl.fin 10, FloatModel.Fl.fin 20⟩).center_adjust
        ⟨FloatModel.Fl.fin 5, FloatModel.Fl.fin 0⟩
        ⟨FloatModel.Fl.fin 0, FloatModel.Fl.fin 7⟩
        ⟨FloatModel.Fl.fin 10, FloatModel.Fl.fin 20⟩
        ⟨FloatModel.Fl.fin 5, FloatModel.Fl.fin 20⟩).2.1.y = FloatModel.Fl.fin 20 ∧
    ((FloatModel.SelectedEdges.new true false false false
        ⟨FloatModel.Fl.fin 0, FloatModel.Fl.fin 0⟩
        ⟨FloatModel.Fl.fin 10, FloatModel.Fl.fin 20⟩).center_adjust
        ⟨FloatModel.Fl.fin 5, FloatModel.Fl.fin 0⟩
        ⟨FloatModel.Fl.fin 0, FloatModel.Fl.fin 7⟩
        ⟨FloatModel.Fl.fin 10, FloatModel.Fl.fin 20⟩
        ⟨FloatModel.Fl.fin 5, FloatModel.Fl.fin 20⟩).2.2.y = FloatModel.Fl.fin 20 :=
  ((C8_centering_per_axis
      (FloatModel.SelectedEdges.new true false false false
        ⟨FloatModel.Fl.fin 0, FloatModel.Fl.fin 0⟩
        ⟨FloatModel.Fl.fin 10, FloatModel.Fl.fin 20⟩)
      ⟨FloatModel.Fl.fin 5, FloatModel.Fl.fin 0⟩
      ⟨FloatModel.Fl.fin 0, FloatModel.Fl.fin 7⟩
      ⟨FloatModel.Fl.fin 10, FloatModel.Fl.fin 20⟩
      ⟨FloatModel.Fl.fin 5, FloatModel.Fl.fin 20⟩).1 rfl).1
    (by norm_num [FloatModel.SelectedEdges.new, FloatModel.fl_sub_def, FloatModel.fl_div_def,
      FloatModel.Fl.sub, FloatModel.Fl.add, FloatModel.Fl.neg, FloatModel.Fl.div])

/-- **C1** (evaluation at the failing input): for the zero-height start box
`[(0,0),(100,0)]` the captured aspect ratio is `+∞`, and `new_size` with
`constrain = true` (right edge dragged to `(50,0)`, identity transform, no
centering) returns an origin whose `y` coordinate is `NaN` — and a result
different from the `constrain = false` call — because the constrain branch of
the source has no finiteness guard on the aspect ratio or on the normalized
pivot. -/
theorem C1_nonfinite_aspect_constrain_nan :
    (FloatModel.SelectedEdges.new false false false true
        ⟨FloatModel.Fl.fin 0, FloatModel.Fl.fin 0⟩
        ⟨FloatModel.Fl.fin 100, FloatModel.Fl.fin 0⟩).aspect_ratio = FloatModel.Fl.pinf ∧
    ((FloatModel.SelectedEdges.new false false false true
        ⟨FloatModel.Fl.fin 0, FloatModel.Fl.fin 0⟩
        ⟨FloatModel.Fl.fin 100, FloatModel.Fl.fin 0⟩).new_size
        ⟨FloatModel.Fl.fin 50, FloatModel.Fl.fin 0⟩ FloatModel.Affine2.identity false
        ⟨FloatModel.Fl.fin 0, FloatModel.Fl.fin 0⟩ true).1.y = FloatModel.Fl.nan ∧
    (FloatModel.SelectedEdges.new false false false true
        ⟨FloatModel.Fl.fin 0, FloatModel.Fl.fin 0⟩
        ⟨FloatModel.Fl.fin 100, FloatModel.Fl.fin 0⟩).new_size
        ⟨FloatModel.Fl.fin 50, FloatModel.Fl.fin 0⟩ FloatModel.Affine2.identity false
        ⟨FloatModel.Fl.fin 0, FloatModel.Fl.fin 0⟩ true ≠
      (FloatModel.SelectedEdges.new false false false true
        ⟨FloatModel.Fl.fin 0, FloatModel.Fl.fin 0⟩
        ⟨FloatModel.Fl.fin 100, FloatModel.Fl.fin 0⟩).new_size
        ⟨FloatModel.Fl.fin 50, FloatModel.Fl.fin 0⟩ FloatModel.Affine2.identity false
        ⟨FloatModel.Fl.fin 0, FloatModel.Fl.fin 0⟩ false := by
  refine ⟨?_, ?_, ?_⟩ <;>
    norm_num [FloatModel.SelectedEdges.new, FloatModel.SelectedEdges.new_size,
      FloatModel.SelectedEdges.edited_bounds, FloatModel.SelectedEdges.pivot_from_bounds,
      FloatModel.SelectedEdges.center_adjust, FloatModel.SelectedEdges.center_adjust_x,
      FloatModel.SelectedEdges.center_adjust_y, FloatModel.constrain_adjust,
      FloatModel.constrain_new_size, FloatModel.Affine2.inverse, FloatModel.Affine2.identity,
      FloatModel.Affine2.transform_point2, FloatModel.Affine2.transform_vector2,
      FloatModel.FVec2.abs, FloatModel.FVec2.cmax, FloatModel.FVec2.signum,
      FloatModel.fl_add_def, FloatModel.fl_sub_def, FloatModel.fl_mul_def,
      FloatModel.fl_div_def, FloatModel.fl_neg_def, FloatModel.fv_add_def,
      FloatModel.fv_sub_def, FloatModel.fv_mul_def, FloatModel.fv_div_def,
      FloatModel.fv_neg_def, FloatModel.Fl.add, FloatModel.Fl.sub, FloatModel.Fl.mul,
      FloatModel.Fl.div, FloatModel.Fl.neg, FloatModel.Fl.abs, FloatModel.Fl.fmax,
      FloatModel.Fl.lt, FloatModel.Fl.signum]
  exact fun h => FloatModel.Fl.noConfusion h

namespace RealModel

@[simp] lemma radd_def (a b : Vec2) : a + b = ⟨a.x + b.x, a.y + b.y⟩ := rfl

@[simp] lemma rsub_def (a b : Vec2) : a - b = ⟨a.x - b.x, a.y - b.y⟩ := rfl

@[simp] lemma rneg_def (a : Vec2) : -a = ⟨-a.x, -a.y⟩ := rfl

@[simp] lemma rsmul_def (a : Vec2) (s : ℝ) : a * s = ⟨a.x * s, a.y * s⟩ := rfl

lemma vadd_sub_cancel (a b : Vec2) : a + b - b = a := by
  ext <;> simp

/-- The length of a unit direction scaled by a nonnegative factor. -/
lemma length_dir_smul (a L : ℝ) (hL : 0 ≤ L) :
    length ((Vec2.mk (Real.cos a) (Real.sin a)) * L) = L := by
  unfold length dot
  have h : Real.cos a * L * (Real.cos a * L) + Real.sin a * L * (Real.sin a * L) = L ^ 2 := by
    have hcs := Real.sin_sq_add_cos_sq a
    nlinarith [hcs]
  simp only [rsmul_def]
  rw [h, Real.sqrt_sq hL]

lemma length_nonneg (v : Vec2) : 0 ≤ length v := Real.sqrt_nonneg _

end RealModel

/-- **C2** (evaluation at the failing input): for every finite anchor `start`,
`axis_align_drag(true, start, start)` returns `(NaN, NaN)` — not `start`.  The
zero displacement makes glam's `angle_between` compute `acos_approx (0 / √0)`,
i.e. `acos` of `0/0 = NaN` (glam documents the inputs as required non-zero),
and the `NaN` propagates through `round`, `cos`/`sin` and the scaling by the
zero length (`NaN · 0 = NaN`) into both coordinates of the result.  The
transcendental primitives are abstract, constrained only by the IEEE-754
`NaN`-propagation rules and `sqrt 0 = 0`, which every conforming
implementation satisfies. -/
theorem C2_zero_displacement_nan (facos fsqrt fcos fsin fround : FloatModel.Fl → FloatModel.Fl)
    (res sx sy : ℚ)
    (hacos : facos FloatModel.Fl.nan = FloatModel.Fl.nan)
    (hsqrt0 : fsqrt (FloatModel.Fl.fin 0) = FloatModel.Fl.fin 0)
    (hcos : fcos FloatModel.Fl.nan = FloatModel.Fl.nan)
    (hsin : fsin FloatModel.Fl.nan = FloatModel.Fl.nan)
    (hround : fround FloatModel.Fl.nan = FloatModel.Fl.nan) :
    FloatModel.axis_align_drag facos fsqrt fcos fsin fround res true
        ⟨FloatModel.Fl.fin sx, FloatModel.Fl.fin sy⟩
        ⟨FloatModel.Fl.fin sx, FloatModel.Fl.fin sy⟩ =
      ⟨FloatModel.Fl.nan, FloatModel.Fl.nan⟩ ∧
    FloatModel.axis_align_drag facos fsqrt fcos fsin fround res true
        ⟨FloatModel.Fl.fin sx, FloatModel.Fl.fin sy⟩
        ⟨FloatModel.Fl.fin sx, FloatModel.Fl.fin sy⟩ ≠
      ⟨FloatModel.Fl.fin sx, FloatModel.Fl.fin sy⟩ := by
  have heq : FloatModel.axis_align_drag facos fsqrt fcos fsin fround res true
      ⟨FloatModel.Fl.fin sx, FloatModel.Fl.fin sy⟩
      ⟨FloatModel.Fl.fin sx, FloatModel.Fl.fin sy⟩ =
      ⟨FloatModel.Fl.nan, FloatModel.Fl.nan⟩ := by
    norm_num [FloatModel.axis_align_drag, FloatModel.angle_between_acos, FloatModel.fdot,
      FloatModel.fperp_dot, FloatModel.flength_squared, FloatModel.flength,
      FloatModel.fl_add_def, FloatModel.fl_sub_def, FloatModel.fl_mul_def,
      FloatModel.fl_div_def, FloatModel.fl_neg_def, FloatModel.fv_sub_def,
      FloatModel.Fl.add, FloatModel.Fl.sub, FloatModel.Fl.mul, FloatModel.Fl.div,
      FloatModel.Fl.neg, FloatModel.Fl.signum,
      hacos, hsqrt0, hcos, hsin, hround]
  refine ⟨heq, ?_⟩
  rw [heq]
  intro hc
  exact FloatModel.Fl.noConfusion (congrArg FloatModel.FVec2.x hc)

/-- Witness for C2: the abstract primitives instantiated with the identity
function (which satisfies all the `NaN`-propagation and `sqrt 0` facts), step
`1`, anchor `(2, 3)`. -/
theorem C2_zero_displacement_nan_witness :
    (id FloatModel.Fl.nan = FloatModel.Fl.nan ∧
      id (FloatModel.Fl.fin 0) = FloatModel.Fl.fin 0) ∧
    FloatModel.axis_align_drag id id id id id 1 true
        ⟨FloatModel.Fl.fin 2, FloatModel.Fl.fin 3⟩
        ⟨FloatModel.Fl.fin 2, FloatModel.Fl.fin 3⟩ =
      ⟨FloatModel.Fl.nan, FloatModel.Fl.nan⟩ ∧
    FloatModel.axis_align_drag id id id id id 1 true
        ⟨FloatModel.Fl.fin 2, FloatModel.Fl.fin 3⟩
        ⟨FloatModel.Fl.fin 2, FloatModel.Fl.fin 3⟩ ≠
      ⟨FloatModel.Fl.fin 2, FloatModel.Fl.fin 3⟩ :=
  ⟨⟨rfl, rfl⟩, C2_zero_displacement_nan id id id id id 1 2 3 rfl rfl rfl rfl rfl⟩

/-- **C3.** For every `position ≠ start`, `axis_align_drag(true, position,
start)` returns a point at distance `|position − start|` from `start` whose
displacement direction is `(cos, sin)` of an integer multiple of the angular
step `SELECTION_DRAG_ANGLE` (in radians). -/
theorem C3_axis_align_snap (position start : RealModel.Vec2) (h : position ≠ start) :
    RealModel.length (RealModel.axis_align_drag true position start - start) =
      RealModel.length (position - start) ∧
    ∃ k : ℤ, RealModel.axis_align_drag true position start - start =
      (RealModel.Vec2.mk
        (Real.cos ((k : ℝ) * RealModel.toRadians RealModel.SELECTION_DRAG_ANGLE))
        (Real.sin ((k : ℝ) * RealModel.toRadians RealModel.SELECTION_DRAG_ANGLE))) *
        RealModel.length (position - start) := by
  have hdrag : RealModel.axis_align_drag true position start - start =
      (RealModel.Vec2.mk
        (Real.cos ((RealModel.rustRoundZ
            (-(RealModel.angle_between (position - start) ⟨1, 0⟩) /
              RealModel.toRadians RealModel.SELECTION_DRAG_ANGLE) : ℝ) *
          RealModel.toRadians RealModel.SELECTION_DRAG_ANGLE))
        (Real.sin ((RealModel.rustRoundZ
            (-(RealModel.angle_between (position - start) ⟨1, 0⟩) /
              RealModel.toRadians RealModel.SELECTION_DRAG_ANGLE) : ℝ) *
          RealModel.toRadians RealModel.SELECTION_DRAG_ANGLE))) *
        RealModel.length (position - start) := by
    unfold RealModel.axis_align_drag RealModel.rustRound
    rw [if_pos rfl]
    exact RealModel.vadd_sub_cancel _ _
  constructor
  · rw [hdrag]
    exact RealModel.length_dir_smul _ _ (RealModel.length_nonneg _)
  · exact ⟨RealModel.rustRoundZ
      (-(RealModel.angle_between (position - start) ⟨1, 0⟩) /
        RealModel.toRadians RealModel.SELECTION_DRAG_ANGLE), hdrag⟩

/-- Witness for C3 at `position = (3,4)`, `start = (1,1)`. -/
theorem C3_axis_align_snap_witness :
    ((⟨3, 4⟩ : RealModel.Vec2) ≠ ⟨1, 1⟩) ∧
    (RealModel.length (RealModel.axis_align_drag true ⟨3, 4⟩ ⟨1, 1⟩ - ⟨1, 1⟩) =
      RealModel.length ((⟨3, 4⟩ : RealModel.Vec2) - ⟨1, 1⟩) ∧
    ∃ k : ℤ, RealModel.axis_align_drag true ⟨3, 4⟩ ⟨1, 1⟩ - ⟨1, 1⟩ =
      (RealModel.Vec2.mk
        (Real.cos ((k : ℝ) * RealModel.toRadians RealModel.SELECTION_DRAG_ANGLE))
        (Real.sin ((k : ℝ) * RealModel.toRadians RealModel.SELECTION_DRAG_ANGLE))) *
        RealModel.length ((⟨3, 4⟩ : RealModel.Vec2) - ⟨1, 1⟩)) :=
  ⟨fun hc => by simpa using congrArg RealModel.Vec2.x hc,
    C3_axis_align_snap ⟨3, 4⟩ ⟨1, 1⟩ (fun hc => by simpa using congrArg RealModel.Vec2.x hc)⟩

namespace RealModel

lemma identity_det : Affine2.identity.det = 1 := by
  unfold Affine2.identity Affine2.det
  norm_num

lemma identity_inverse_point (p : Vec2) :
    Affine2.identity.inverse.transform_point2 p = p := by
  unfold Affine2.inverse Affine2.identity Affine2.det Affine2.transform_point2
    Affine2.transform_vector2
  ext <;> norm_num

lemma identity_inverse_vector (p : Vec2) :
    Affine2.identity.inverse.transform_vector2 p = p := by
  unfold Affine2.inverse Affine2.identity Affine2.det Affine2.transform_vector2
  ext <;> norm_num

lemma length_vertical (t : ℝ) (ht : 0 ≤ t) : length ⟨0, t⟩ = t := by
  unfold length dot
  rw [show (0 : ℝ) * 0 + t * t = t ^ 2 by ring, Real.sqrt_sq ht]

lemma thinMgr_local_cursor (p : Vec2) : thinMgr.local_cursor p = p :=
  identity_inverse_point p

lemma squareMgr_local_cursor (p : Vec2) : squareMgr.local_cursor p = p :=
  identity_inverse_point p

lemma thinMgr_select_threshold : thinMgr.select_threshold = 10 := by
  unfold BoundingBoxManager.select_threshold thinMgr
  rw [identity_inverse_vector]
  unfold BOUNDS_SELECT_THRESHOLD
  exact length_vertical 10 (by norm_num)

lemma squareMgr_select_threshold : squareMgr.select_threshold = 10 := by
  unfold BoundingBoxManager.select_threshold squareMgr
  rw [identity_inverse_vector]
  unfold BOUNDS_SELECT_THRESHOLD
  exact length_vertical 10 (by norm_num)

lemma squareMgr_rotate_threshold : squareMgr.rotate_threshold = 10 := by
  unfold BoundingBoxManager.rotate_threshold squareMgr
  rw [identity_inverse_vector]
  unfold BOUNDS_ROTATE_THRESHOLD
  exact length_vertical 10 (by norm_num)

end RealModel

namespace RealModel

/-- The vertical thin-box rule fires when the span condition holds and a raw
left/right flag is set. -/
lemma thin_adjust_y_fires (c mn mx : Vec2) (t : ℝ) (f : Bool × Bool × Bool × Bool)
    (hspan : c.y - mn.y + mx.y - c.y < t * 2)
    (hlr : f.2.2.1 = true ∨ f.2.2.2 = true) :
    thin_adjust_y c mn mx t f = (false, false, f.2.2.1, f.2.2.2) := by
  unfold thin_adjust_y
  rw [if_pos]
  simp only [Bool.and_eq_true, Bool.or_eq_true, decide_eq_true_eq]
  exact ⟨hspan, hlr⟩

/-- The horizontal thin-box rule fires when the span condition holds and a
current top/bottom flag is set. -/
lemma thin_adjust_x_fires (c mn mx : Vec2) (t : ℝ) (f : Bool × Bool × Bool × Bool)
    (hspan : c.x - mn.x + mx.x - c.x < t * 2)
    (htb : f.1 = true ∨ f.2.1 = true) :
    thin_adjust_x c mn mx t f = (f.1, f.2.1, false, false) := by
  unfold thin_adjust_x
  rw [if_pos]
  simp only [Bool.and_eq_true, Bool.or_eq_true, decide_eq_true_eq]
  exact ⟨hspan, htb⟩

/-- The horizontal thin-box rule is a no-op once top and bottom are cleared. -/
lemma thin_adjust_x_skips (c mn mx : Vec2) (t : ℝ) (f : Bool × Bool × Bool × Bool)
    (h1 : f.1 = false) (h2 : f.2.1 = false) :
    thin_adjust_x c mn mx t f = f := by
  unfold thin_adjust_x
  simp [h1, h2]

/-- Degenerate-size suppression never sets a cleared top/bottom pair. -/
lemma degenerate_adjust_keeps_tb (mn mx : Vec2) (f : Bool × Bool × Bool × Bool)
    (h1 : f.1 = false) (h2 : f.2.1 = false) :
    (degenerate_adjust mn mx f).1 = false ∧ (degenerate_adjust mn mx f).2.1 = false := by
  unfold degenerate_adjust
  split <;> split <;> simp_all

/-- Degenerate-size suppression never sets a cleared left/right pair. -/
lemma degenerate_adjust_keeps_lr (mn mx : Vec2) (f : Bool × Bool × Bool × Bool)
    (h1 : f.2.2.1 = false) (h2 : f.2.2.2 = false) :
    (degenerate_adjust mn mx f).2.2.1 = false ∧ (degenerate_adjust mn mx f).2.2.2 = false := by
  unfold degenerate_adjust
  split <;> split <;> simp_all

/-- A `some` result of `check_selected_edges` has at least one flag set. -/
lemma check_selected_edges_some_any (m : BoundingBoxManager) (cursor : Vec2)
    (f : Bool × Bool × Bool × Bool) (h : m.check_selected_edges cursor = some f) :
    (f.1 || f.2.1 || f.2.2.1 || f.2.2.2) = true := by
  unfold BoundingBoxManager.check_selected_edges at h
  dsimp only at h
  split at h
  · split at h
    · rw [Option.some.injEq] at h
      subst h
      assumption
    · exact absurd h (by simp)
  · exact absurd h (by simp)

/-- A `some` result of `check_selected_edges` is the staged flag pipeline. -/
lemma check_selected_edges_some_eq (m : BoundingBoxManager) (cursor : Vec2)
    (f : Bool × Bool × Bool × Bool) (h : m.check_selected_edges cursor = some f) :
    f = degenerate_adjust (cmin m.bounds.1 m.bounds.2) (cmax m.bounds.1 m.bounds.2)
      (thin_adjust_x (m.local_cursor cursor) (cmin m.bounds.1 m.bounds.2)
        (cmax m.bounds.1 m.bounds.2) m.select_threshold
        (thin_adjust_y (m.local_cursor cursor) (cmin m.bounds.1 m.bounds.2)
          (cmax m.bounds.1 m.bounds.2) m.select_threshold
          (raw_edges (m.local_cursor cursor) (cmin m.bounds.1 m.bounds.2)
            (cmax m.bounds.1 m.bounds.2) m.select_threshold))) := by
  unfold BoundingBoxManager.check_selected_edges at h
  dsimp only at h
  split at h
  · split at h
    · rw [Option.some.injEq] at h
      exact h.symm
    · exact absurd h (by simp)
  · exact absurd h (by simp)

end RealModel

namespace RealModel

/-- The spec's §8 thin-box example, evaluated: cursor at local `(0, 2.5)` on
the `100×5` box hits only the left edge. -/
lemma thinMgr_eval :
    thinMgr.check_selected_edges ⟨0, 5 / 2⟩ = some (false, false, true, false) := by
  unfold BoundingBoxManager.check_selected_edges
  dsimp only
  rw [thinMgr_local_cursor, thinMgr_select_threshold]
  norm_num [thinMgr, cmin, cmax, raw_edges, thin_adjust_y, thin_adjust_x, degenerate_adjust,
    EPSILON, min_def, max_def, abs_of_nonneg, abs_of_nonpos]

end RealModel

/-- **C9.** In `check_selected_edges`: whenever the vertical span condition
`(cursor.y − min.y) + (max.y − cursor.y) < 2×threshold` holds and a raw
left/right proximity flag is set, the returned top and bottom flags are
cleared; symmetrically, whenever the horizontal span condition holds and a
top/bottom flag (after the vertical rule) is set, the returned left and right
flags are cleared.  Concretely, the `100×5` box with threshold `10` and local
cursor `(0, 2.5)` yields `Some (top=false, bottom=false, left=true,
right=false)`. -/
theorem C9_thin_box_priority :
    (∀ (m : RealModel.BoundingBoxManager) (cursor : RealModel.Vec2)
      (f : Bool × Bool × Bool × Bool),
      m.check_selected_edges cursor = some f →
      ((((m.local_cursor cursor).y - (RealModel.cmin m.bounds.1 m.bounds.2).y) +
          ((RealModel.cmax m.bounds.1 m.bounds.2).y - (m.local_cursor cursor).y) <
            2 * m.select_threshold →
        ((RealModel.raw_edges (m.local_cursor cursor) (RealModel.cmin m.bounds.1 m.bounds.2)
            (RealModel.cmax m.bounds.1 m.bounds.2) m.select_threshold).2.2.1 = true ∨
          (RealModel.raw_edges (m.local_cursor cursor) (RealModel.cmin m.bounds.1 m.bounds.2)
            (RealModel.cmax m.bounds.1 m.bounds.2) m.select_threshold).2.2.2 = true) →
        f.1 = false ∧ f.2.1 = false) ∧
       (((m.local_cursor cursor).x - (RealModel.cmin m.bounds.1 m.bounds.2).x) +
          ((RealModel.cmax m.bounds.1 m.bounds.2).x - (m.local_cursor cursor).x) <
            2 * m.select_threshold →
        ((RealModel.thin_adjust_y (m.local_cursor cursor)
            (RealModel.cmin m.bounds.1 m.bounds.2) (RealModel.cmax m.bounds.1 m.bounds.2)
            m.select_threshold
            (RealModel.raw_edges (m.local_cursor cursor) (RealModel.cmin m.bounds.1 m.bounds.2)
              (RealModel.cmax m.bounds.1 m.bounds.2) m.select_threshold)).1 = true ∨
          (RealModel.thin_adjust_y (m.local_cursor cursor)
            (RealModel.cmin m.bounds.1 m.bounds.2) (RealModel.cmax m.bounds.1 m.bounds.2)
            m.select_threshold
            (RealModel.raw_edges (m.local_cursor cursor) (RealModel.cmin m.bounds.1 m.bounds.2)
              (RealModel.cmax m.bounds.1 m.bounds.2) m.select_threshold)).2.1 = true) →
        f.2.2.1 = false ∧ f.2.2.2 = false))) ∧
    RealModel.thinMgr.check_selected_edges ⟨0, 5 / 2⟩ = some (false, false, true, false) := by
  constructor
  · intro m cursor f hsome
    have heq := RealModel.check_selected_edges_some_eq m cursor f hsome
    constructor
    · intro hspan hlr
      rw [heq,
        RealModel.thin_adjust_y_fires _ _ _ _ _ (by linarith) hlr,
        RealModel.thin_adjust_x_skips _ _ _ _ _ rfl rfl]
      exact RealModel.degenerate_adjust_keeps_tb _ _ _ rfl rfl
    · intro hspan htb
      rw [heq, RealModel.thin_adjust_x_fires _ _ _ _ _ (by linarith) htb]
      exact RealModel.degenerate_adjust_keeps_lr _ _ _ rfl rfl
  · exact RealModel.thinMgr_eval

/-- Witness for C9 at the thin-box example: the theorem's first clause applied
to the concrete `some (false, false, true, false)` result. -/
theorem C9_thin_box_priority_witness :
    (((false, false, true, false) : Bool × Bool × Bool × Bool).1 = false ∧
      ((false, false, true, false) : Bool × Bool × Bool × Bool).2.1 = false) ∧
    RealModel.thinMgr.check_selected_edges ⟨0, 5 / 2⟩ = some (false, false, true, false) :=
  ⟨(C9_thin_box_priority.1 RealModel.thinMgr ⟨0, 5 / 2⟩ (false, false, true, false)
      RealModel.thinMgr_eval).1
      (by
        rw [RealModel.thinMgr_local_cursor, RealModel.thinMgr_select_threshold]
        norm_num [RealModel.thinMgr, RealModel.cmin, RealModel.cmax, min_def, max_def])
      (Or.inl (by
        rw [RealModel.thinMgr_local_cursor, RealModel.thinMgr_select_threshold]
        norm_num [RealModel.thinMgr, RealModel.cmin, RealModel.cmax, RealModel.raw_edges,
          min_def, max_def])),
    C9_thin_box_priority.2⟩

/-- **C10.** A `some` result of `check_selected_edges` never has all four flags
false, every such flag combination matches one of the four resize-icon
patterns, and therefore `get_cursor` returns one of the four resize icons —
never the fallback `Default` — whenever an edge hit is detected. -/
theorem C10_edge_hit_never_default (m : RealModel.BoundingBoxManager)
    (cursor : RealModel.Vec2) (rotate : Bool) (f : Bool × Bool × Bool × Bool)
    (hsome : m.check_selected_edges cursor = some f) :
    f ≠ (false, false, false, false) ∧
    (m.get_cursor cursor rotate = RealModel.MouseCursorIcon.NSResize ∨
     m.get_cursor cursor rotate = RealModel.MouseCursorIcon.EWResize ∨
     m.get_cursor cursor rotate = RealModel.MouseCursorIcon.NWSEResize ∨
     m.get_cursor cursor rotate = RealModel.MouseCursorIcon.NESWResize) ∧
    m.get_cursor cursor rotate ≠ RealModel.MouseCursorIcon.Default := by
  have hany := RealModel.check_selected_edges_some_any m cursor f hsome
  obtain ⟨t1, b1, l1, r1⟩ := f
  cases t1 <;> cases b1 <;> cases l1 <;> cases r1 <;>
    first
      | exact absurd hany (by decide)
      | exact ⟨by decide,
          by simp only [RealModel.BoundingBoxManager.get_cursor, hsome]; decide,
          by simp only [RealModel.BoundingBoxManager.get_cursor, hsome]; decide⟩

/-- Witness for C10 at the thin-box example. -/
theorem C10_edge_hit_never_default_witness :
    ((false, false, true, false) : Bool × Bool × Bool × Bool) ≠
      (false, false, false, false) ∧
    (RealModel.thinMgr.get_cursor ⟨0, 5 / 2⟩ true = RealModel.MouseCursorIcon.NSResize ∨
     RealModel.thinMgr.get_cursor ⟨0, 5 / 2⟩ true = RealModel.MouseCursorIcon.EWResize ∨
     RealModel.thinMgr.get_cursor ⟨0, 5 / 2⟩ true = RealModel.MouseCursorIcon.NWSEResize ∨
     RealModel.thinMgr.get_cursor ⟨0, 5 / 2⟩ true = RealModel.MouseCursorIcon.NESWResize) ∧
    RealModel.thinMgr.get_cursor ⟨0, 5 / 2⟩ true ≠ RealModel.MouseCursorIcon.Default :=
  C10_edge_hit_never_default RealModel.thinMgr ⟨0, 5 / 2⟩ true (false, false, true, false)
    RealModel.thinMgr_eval

namespace RealModel

/-- The spec's §8 rotate-ring example, outside the right edge by 5. -/
lemma squareMgr_rotate_true : squareMgr.check_rotate ⟨105, 50⟩ = true := by
  unfold BoundingBoxManager.check_rotate
  dsimp only
  rw [squareMgr_local_cursor, squareMgr_rotate_threshold]
  simp only [Bool.and_eq_true, decide_eq_true_eq]
  norm_num [squareMgr, cmin, cmax, min_def, max_def]

/-- The spec's §8 rotate-ring example, strictly inside the box. -/
lemma squareMgr_rotate_false : squareMgr.check_rotate ⟨50, 50⟩ = false := by
  unfold BoundingBoxManager.check_rotate
  dsimp only
  rw [squareMgr_local_cursor, squareMgr_rotate_threshold]
  rw [Bool.eq_false_iff]
  simp only [ne_eq, Bool.and_eq_true, decide_eq_true_eq]
  norm_num [squareMgr, cmin, cmax, min_def, max_def]

/-- The boundary of the rotate ring: exactly threshold away from the right
edge, the strict comparison of the source returns `false`. -/
lemma squareMgr_rotate_boundary : squareMgr.check_rotate ⟨110, 50⟩ = false := by
  unfold BoundingBoxManager.check_rotate
  dsimp only
  rw [squareMgr_local_cursor, squareMgr_rotate_threshold]
  rw [Bool.eq_false_iff]
  simp only [ne_eq, Bool.and_eq_true, decide_eq_true_eq]
  norm_num [squareMgr, cmin, cmax, min_def, max_def]

end RealModel

/-- **C7** (amended): for every bounds and invertible transform, `check_rotate`
returns `true` iff the local cursor lies strictly outside `[min, max]` on at
least one axis AND strictly within the open interval
`(min − r, max + r)` on both axes (the source compares with strict `<` on both
sides, so the extended region excludes its boundary); in particular, for
bounds `[(0,0),(100,100)]` with `r = 10`, local cursor `(105, 50)` gives
`true` and `(50, 50)` gives `false`. -/
theorem C7_check_rotate_ring :
    (∀ (m : RealModel.BoundingBoxManager) (cursor : RealModel.Vec2),
      m.transform.det ≠ 0 →
      (m.check_rotate cursor = true ↔
        (((RealModel.cmin m.bounds.1 m.bounds.2).x > (m.local_cursor cursor).x ∨
          (m.local_cursor cursor).x > (RealModel.cmax m.bounds.1 m.bounds.2).x) ∨
         ((RealModel.cmin m.bounds.1 m.bounds.2).y > (m.local_cursor cursor).y ∨
          (m.local_cursor cursor).y > (RealModel.cmax m.bounds.1 m.bounds.2).y)) ∧
        ((RealModel.cmin m.bounds.1 m.bounds.2).x - m.rotate_threshold <
            (m.local_cursor cursor).x ∧
         (m.local_cursor cursor).x <
            (RealModel.cmax m.bounds.1 m.bounds.2).x + m.rotate_threshold ∧
         (RealModel.cmin m.bounds.1 m.bounds.2).y - m.rotate_threshold <
            (m.local_cursor cursor).y ∧
         (m.local_cursor cursor).y <
            (RealModel.cmax m.bounds.1 m.bounds.2).y + m.rotate_threshold))) ∧
    RealModel.squareMgr.check_rotate ⟨105, 50⟩ = true ∧
    RealModel.squareMgr.check_rotate ⟨50, 50⟩ = false := by
  refine ⟨fun m cursor hdet => ?_,
    RealModel.squareMgr_rotate_true, RealModel.squareMgr_rotate_false⟩
  unfold RealModel.BoundingBoxManager.check_rotate
  dsimp only
  simp only [Bool.and_eq_true, decide_eq_true_eq]
  constructor
  · rintro ⟨hout, h1, h2, h3, h4⟩
    exact ⟨hout, by linarith, by linarith, by linarith, by linarith⟩
  · rintro ⟨hout, h1, h2, h3, h4⟩
    exact ⟨hout, by linarith, by linarith, by linarith, by linarith⟩

/-- Counterexample to C7 as stated: with the closed-interval reading
`[min − r, max + r]` of the claim, the local cursor `(110, 50)` on bounds
`[(0,0),(100,100)]` with `r = 10` is strictly outside the box and within the
closed extended interval on both axes, yet `check_rotate` returns `false`
(the source's comparisons are strict). -/
theorem C7_counterexample :
    ¬(RealModel.squareMgr.check_rotate ⟨110, 50⟩ = true ↔
      (((RealModel.cmin RealModel.squareMgr.bounds.1 RealModel.squareMgr.bounds.2).x >
          (RealModel.squareMgr.local_cursor ⟨110, 50⟩).x ∨
        (RealModel.squareMgr.local_cursor ⟨110, 50⟩).x >
          (RealModel.cmax RealModel.squareMgr.bounds.1 RealModel.squareMgr.bounds.2).x) ∨
       ((RealModel.cmin RealModel.squareMgr.bounds.1 RealModel.squareMgr.bounds.2).y >
          (RealModel.squareMgr.local_cursor ⟨110, 50⟩).y ∨
        (RealModel.squareMgr.local_cursor ⟨110, 50⟩).y >
          (RealModel.cmax RealModel.squareMgr.bounds.1 RealModel.squareMgr.bounds.2).y)) ∧
      ((RealModel.cmin RealModel.squareMgr.bounds.1 RealModel.squareMgr.bounds.2).x -
          RealModel.squareMgr.rotate_threshold ≤
          (RealModel.squareMgr.local_cursor ⟨110, 50⟩).x ∧
       (RealModel.squareMgr.local_cursor ⟨110, 50⟩).x ≤
          (RealModel.cmax RealModel.squareMgr.bounds.1 RealModel.squareMgr.bounds.2).x +
          RealModel.squareMgr.rotate_threshold ∧
       (RealModel.cmin RealModel.squareMgr.bounds.1 RealModel.squareMgr.bounds.2).y -
          RealModel.squareMgr.rotate_threshold ≤
          (RealModel.squareMgr.local_cursor ⟨110, 50⟩).y ∧
       (RealModel.squareMgr.local_cursor ⟨110, 50⟩).y ≤
          (RealModel.cmax RealModel.squareMgr.bounds.1 RealModel.squareMgr.bounds.2).y +
          RealModel.squareMgr.rotate_threshold)) := by
  intro hiff
  have hrhs := hiff.mpr (by
    rw [RealModel.squareMgr_local_cursor, RealModel.squareMgr_rotate_threshold]
    norm_num [RealModel.squareMgr, RealModel.cmin, RealModel.cmax, min_def, max_def])
  rw [RealModel.squareMgr_rotate_boundary] at hrhs
  exact absurd hrhs (by decide)

/-- Witness for C7 at the square box and cursor `(105, 50)` (identity
transform, determinant `1`). -/
theorem C7_check_rotate_ring_witness :
    RealModel.squareMgr.transform.det ≠ 0 ∧
    (RealModel.squareMgr.check_rotate ⟨105, 50⟩ = true ↔
      (((RealModel.cmin RealModel.squareMgr.bounds.1 RealModel.squareMgr.bounds.2).x >
          (RealModel.squareMgr.local_cursor ⟨105, 50⟩).x ∨
        (RealModel.squareMgr.local_cursor ⟨105, 50⟩).x >
          (RealModel.cmax RealModel.squareMgr.bounds.1 RealModel.squareMgr.bounds.2).x) ∨
       ((RealModel.cmin RealModel.squareMgr.bounds.1 RealModel.squareMgr.bounds.2).y >
          (RealModel.squareMgr.local_cursor ⟨105, 50⟩).y ∨
        (RealModel.squareMgr.local_cursor ⟨105, 50⟩).y >
          (RealModel.cmax RealModel.squareMgr.bounds.1 RealModel.squareMgr.bounds.2).y)) ∧
      ((RealModel.cmin RealModel.squareMgr.bounds.1 RealModel.squareMgr.bounds.2).x -
          RealModel.squareMgr.rotate_threshold <
          (RealModel.squareMgr.local_cursor ⟨105, 50⟩).x ∧
       (RealModel.squareMgr.local_cursor ⟨105, 50⟩).x <
          (RealModel.cmax RealModel.squareMgr.bounds.1 RealModel.squareMgr.bounds.2).x +
          RealModel.squareMgr.rotate_threshold ∧
       (RealModel.cmin RealModel.squareMgr.bounds.1 RealModel.squareMgr.bounds.2).y -
          RealModel.squareMgr.rotate_threshold <
          (RealModel.squareMgr.local_cursor ⟨105, 50⟩).y ∧
       (RealModel.squareMgr.local_cursor ⟨105, 50⟩).y <
          (RealModel.cmax RealModel.squareMgr.bounds.1 RealModel.squareMgr.bounds.2).y +
          RealModel.squareMgr.rotate_threshold)) :=
  ⟨by
    rw [show RealModel.squareMgr.transform = RealModel.Affine2.identity from rfl,
      RealModel.identity_det]
    norm_num,
   C7_check_rotate_ring.1 RealModel.squareMgr ⟨105, 50⟩ (by
    rw [show RealModel.squareMgr.transform = RealModel.Affine2.identity from rfl,
      RealModel.identity_det]
    norm_num)⟩
